import Mathlib

/-!
# A fluent assertion helper: `verify.go`

A shallow embedding of package `verify` (file `src/verify.go`) together with the parts of the
Go runtime, of package `reflect` and of package `fmt` that the file calls.

* Go values held in an `interface{}` are the inductive `Value`; the `nil` interface is
  `none : Option Value`.
* `*Verifier` and `*testing.T` are heap addresses (`Option Nat`, `none` being the nil pointer);
  the heap is passed explicitly and every method is a function `Heap → Result _`, whose result
  is either a normal return or a Go panic.
* `t.Errorf(format, args...)` appends the formatted text to the output of the `testing.T` it is
  called on and marks it failed.

What is outside the model: values whose types carry `Error` or `String` methods (package fmt
would print them through the method), complex numbers, cyclic values, goroutines, functions
that never return or leave through `runtime.Goexit`, and a `panic(nil)` under Go older than
1.21 (`recover` never yields nil for a panic here).
-/

namespace Verify

/-! ## Runtime values -/

/-- The kinds of package reflect (`reflect.Kind`). -/
inductive Kind where
  | Invalid | Bool
  | Int | Int8 | Int16 | Int32 | Int64
  | Uint | Uint8 | Uint16 | Uint32 | Uint64 | Uintptr
  | Float32 | Float64 | Complex64 | Complex128
  | Array | Chan | Func | Interface | Map | Ptr | Slice | String | Struct | UnsafePointer
  deriving DecidableEq, Repr

/-- The integer types of Go. -/
inductive IntKind where
  | int | int8 | int16 | int32 | int64
  | uint | uint8 | uint16 | uint32 | uint64 | uintptr
  deriving DecidableEq, Repr

/-- The floating-point types of Go. -/
inductive FloatKind where
  | float32 | float64
  deriving DecidableEq, Repr

/-- An IEEE-754 binary floating-point datum: a NaN, an infinity, or the finite number
`(-1)^neg * mant * 2^exp` (`fin true 0 0` is the negative zero). Every `float64` is of this
form, with `mant < 2^53`. -/
inductive F64 where
  | nan
  | inf (neg : Bool)
  | fin (neg : Bool) (mant : Nat) (exp : Int)
  deriving DecidableEq, Repr

namespace F64

/-- The signed mantissa. -/
def signed (neg : Bool) (mant : Nat) : Int :=
  if neg then -(mant : Int) else (mant : Int)

/-- The integer `a * 2^(e - min e f)`: the mantissa `a` of exponent `e`, brought to the smaller
of the exponents `e` and `f`. -/
def scaled (a : Int) (e f : Int) : Int :=
  a * 2 ^ (e - min e f).toNat

/-- IEEE comparison `x <= y` (false as soon as one side is a NaN). -/
def le : F64 → F64 → Bool
  | nan, _ => false
  | _, nan => false
  | inf true, _ => true
  | _, inf false => true
  | inf false, _ => false
  | _, inf true => false
  | fin n1 m1 e1, fin n2 m2 e2 =>
    decide (scaled (signed n1 m1) e1 e2 ≤ scaled (signed n2 m2) e2 e1)

/-- IEEE comparison `x >= y`. -/
def ge (x y : F64) : Bool := le y x

/-- IEEE equality `x == y` (a NaN equals nothing, the two zeros are equal). -/
def eq : F64 → F64 → Bool
  | nan, _ => false
  | _, nan => false
  | inf a, inf b => a == b
  | fin n1 m1 e1, fin n2 m2 e2 =>
    decide (scaled (signed n1 m1) e1 e2 = scaled (signed n2 m2) e2 e1)
  | _, _ => false

/-- The number of low bits that a natural number loses when it is cut to 53 significant bits
(`fuel` bounds the search; 64 suffices for a 64-bit integer). -/
def excessBits : Nat → Nat → Nat
  | 0, _ => 0
  | fuel + 1, n => if n < 2 ^ 53 then 0 else 1 + excessBits fuel (n / 2)

/-- Rounding of a natural number to 53 significant bits, to nearest, ties to even: the result
`(q, k)` stands for `q * 2^k`. -/
def roundNat (n : Nat) : Nat × Nat :=
  let k := excessBits 64 n
  if k = 0 then (n, 0)
  else
    let q := n / 2 ^ k
    let r := n % 2 ^ k
    let half := 2 ^ (k - 1)
    if r > half ∨ (r = half ∧ q % 2 = 1) then (q + 1, k) else (q, k)

/-- The conversion `float64(i)` of a Go `int`. -/
def ofInt (i : Int) : F64 :=
  let qk := roundNat i.natAbs
  fin (decide (i < 0)) qk.1 (qk.2 : Int)

end F64

/-- A type other than a predeclared basic type: the name that `%T` prints, and the identity of
the type, which stands for the address of its descriptor in the runtime. Two types are one type
exactly when they have one identity; distinct types may print alike (two types `T` declared in
two functions of one package both print as `main.T`), and then their identities differ. -/
structure GoType where
  name : String
  id : Nat
  deriving DecidableEq, Repr

/-- A Go value as an `interface{}` can hold it. A value of a basic kind carries `named = none`
when its type is the predeclared type of that kind and `some t` when it is a defined type `t`
over it; a value of a composite kind carries its type `ty`. Slices, maps, pointers, channels
and functions carry the address they refer to, with separate constructors for their nil values.
The entries of a map are listed in the order in which package fmt prints them. `iface` and
`ifaceNil` are elements or fields of an interface type. -/
inductive Value where
  | bool (named : Option GoType) (b : Bool)
  | int (k : IntKind) (named : Option GoType) (i : Int)
  | float (k : FloatKind) (named : Option GoType) (x : F64)
  | string (named : Option GoType) (s : String)
  | array (ty : GoType) (elems : List Value)
  | nilSlice (ty : GoType)
  | slice (ty : GoType) (base : Nat) (elems : List Value)
  | nilMap (ty : GoType)
  | map (ty : GoType) (addr : Nat) (entries : List (Value × Value))
  | nilPtr (ty : GoType)
  | ptr (ty : GoType) (addr : Nat) (target : Value)
  | nilChan (ty : GoType)
  | chan (ty : GoType) (addr : Nat) (buffered : Nat)
  | nilFunc (ty : GoType)
  | func (ty : GoType) (addr : Nat)
  | struct (ty : GoType) (fields : List Value)
  | ifaceNil (ty : GoType)
  | iface (ty : GoType) (held : Value)
  | unsafePointer (named : Option GoType) (addr : Nat)

/-- An `interface{}`: nil, or a value with its dynamic type. -/
abbrev Iface := Option Value

/-- The kind of an integer type. -/
def IntKind.kind : IntKind → Kind
  | .int => .Int | .int8 => .Int8 | .int16 => .Int16 | .int32 => .Int32 | .int64 => .Int64
  | .uint => .Uint | .uint8 => .Uint8 | .uint16 => .Uint16 | .uint32 => .Uint32
  | .uint64 => .Uint64 | .uintptr => .Uintptr

/-- The name of a predeclared integer type. -/
def IntKind.name : IntKind → String
  | .int => "int" | .int8 => "int8" | .int16 => "int16" | .int32 => "int32" | .int64 => "int64"
  | .uint => "uint" | .uint8 => "uint8" | .uint16 => "uint16" | .uint32 => "uint32"
  | .uint64 => "uint64" | .uintptr => "uintptr"

/-- The kind of a value: `reflect.ValueOf(x).Kind()`. -/
def Value.kind : Value → Kind
  | .bool _ _ => .Bool
  | .int k _ _ => k.kind
  | .float .float32 _ _ => .Float32
  | .float .float64 _ _ => .Float64
  | .string _ _ => .String
  | .array _ _ => .Array
  | .nilSlice _ => .Slice
  | .slice _ _ _ => .Slice
  | .nilMap _ => .Map
  | .map _ _ _ => .Map
  | .nilPtr _ => .Ptr
  | .ptr _ _ _ => .Ptr
  | .nilChan _ => .Chan
  | .chan _ _ _ => .Chan
  | .nilFunc _ => .Func
  | .func _ _ => .Func
  | .struct _ _ => .Struct
  | .ifaceNil _ => .Interface
  | .iface _ _ => .Interface
  | .unsafePointer _ _ => .UnsafePointer

/-- The name of a basic type: the name of the defined type, or else of the predeclared one. -/
def nameOr (named : Option GoType) (predeclared : String) : String :=
  match named with
  | none => predeclared
  | some t => t.name

/-- The name of the type of a value, as `%T` prints it. -/
def Value.typeName : Value → String
  | .bool named _ => nameOr named "bool"
  | .int k named _ => nameOr named k.name
  | .float .float32 named _ => nameOr named "float32"
  | .float .float64 named _ => nameOr named "float64"
  | .string named _ => nameOr named "string"
  | .array ty _ => ty.name
  | .nilSlice ty => ty.name
  | .slice ty _ _ => ty.name
  | .nilMap ty => ty.name
  | .map ty _ _ => ty.name
  | .nilPtr ty => ty.name
  | .ptr ty _ _ => ty.name
  | .nilChan ty => ty.name
  | .chan ty _ _ => ty.name
  | .nilFunc ty => ty.name
  | .func ty _ => ty.name
  | .struct ty _ => ty.name
  | .ifaceNil ty => ty.name
  | .iface ty _ => ty.name
  | .unsafePointer named _ => nameOr named "unsafe.Pointer"

/-- The identity of the type of a value within its kind: none for the predeclared type of a
basic kind, else the identity of the type. -/
def Value.typeId : Value → Option Nat
  | .bool named _ => named.map GoType.id
  | .int _ named _ => named.map GoType.id
  | .float _ named _ => named.map GoType.id
  | .string named _ => named.map GoType.id
  | .array ty _ => some ty.id
  | .nilSlice ty => some ty.id
  | .slice ty _ _ => some ty.id
  | .nilMap ty => some ty.id
  | .map ty _ _ => some ty.id
  | .nilPtr ty => some ty.id
  | .ptr ty _ _ => some ty.id
  | .nilChan ty => some ty.id
  | .chan ty _ _ => some ty.id
  | .nilFunc ty => some ty.id
  | .func ty _ => some ty.id
  | .struct ty _ => some ty.id
  | .ifaceNil ty => some ty.id
  | .iface ty _ => some ty.id
  | .unsafePointer named _ => named.map GoType.id

/-- Identity of the types of two values, `v1.Type() == v2.Type()`: one kind and one identity
(the printed names play no part). -/
def sameType (v1 v2 : Value) : Bool :=
  decide (v1.kind = v2.kind) && decide (v1.typeId = v2.typeId)

/-! ## Package reflect -/

mutual
/-- The comparison operator `==` of Go on two values of one comparable type. -/
def goEq : Value → Value → Bool
  | .bool _ a, .bool _ b => a == b
  | .int _ _ a, .int _ _ b => a == b
  | .float _ _ a, .float _ _ b => F64.eq a b
  | .string _ a, .string _ b => a == b
  | .array _ e1, .array _ e2 => goEqList e1 e2
  | .struct _ f1, .struct _ f2 => goEqList f1 f2
  | .nilPtr _, .nilPtr _ => true
  | .ptr _ a _, .ptr _ b _ => a == b
  | .nilChan _, .nilChan _ => true
  | .chan _ a _, .chan _ b _ => a == b
  | .ifaceNil _, .ifaceNil _ => true
  | .iface _ x, .iface _ y => sameType x y && goEq x y
  | .unsafePointer _ a, .unsafePointer _ b => a == b
  | _, _ => false
/-- The operator `==` on the elements of two arrays, or on the fields of two structs. -/
def goEqList : List Value → List Value → Bool
  | [], [] => true
  | x :: xs, y :: ys => goEq x y && goEqList xs ys
  | _, _ => false
end

/-- The value under a key, `v2.MapIndex(key)`: the first entry whose key is `==` to it. -/
def mapIndex (key : Value) : List (Value × Value) → Option Value
  | [] => none
  | (k, val) :: rest => if goEq k key then some val else mapIndex key rest

mutual
/-- The recursive comparison `deepValueEqual` of package reflect (the record of visited
pointers, which only serves cyclic values, is left out). -/
def deepValueEqual (v1 v2 : Value) : Bool :=
  sameType v1 v2 &&
  match v1, v2 with
  | .array _ e1, .array _ e2 => deepList e1 e2
  | .nilSlice _, .nilSlice _ => true
  | .slice _ b1 e1, .slice _ b2 e2 =>
    e1.length == e2.length && (b1 == b2 || deepList e1 e2)
  | .ifaceNil _, .ifaceNil _ => true
  | .iface _ x, .iface _ y => deepValueEqual x y
  | .nilPtr _, .nilPtr _ => true
  | .ptr _ a x, .ptr _ b y => a == b || deepValueEqual x y
  | .struct _ f1, .struct _ f2 => deepList f1 f2
  | .nilMap _, .nilMap _ => true
  | .map _ a m1, .map _ b m2 =>
    m1.length == m2.length && (a == b || deepEntries m1 m2)
  | .nilFunc _, .nilFunc _ => true
  | .int _ _ a, .int _ _ b => a == b
  | .string _ a, .string _ b => a == b
  | .bool _ a, .bool _ b => a == b
  | .float _ _ a, .float _ _ b => F64.eq a b
  | .nilChan _, .nilChan _ => true
  | .chan _ a _, .chan _ b _ => a == b
  | .unsafePointer _ a, .unsafePointer _ b => a == b
  | _, _ => false
/-- The loop of `deepValueEqual` over the elements of two arrays or slices, or over the fields
of two structs. -/
def deepList : List Value → List Value → Bool
  | [], [] => true
  | x :: xs, y :: ys => deepValueEqual x y && deepList xs ys
  | _, _ => false
/-- The loop of `deepValueEqual` over the entries of the first map, each looked up in the
second. -/
def deepEntries : List (Value × Value) → List (Value × Value) → Bool
  | [], _ => true
  | (k, val1) :: rest, m2 =>
    (match mapIndex k m2 with
      | none => false
      | some val2 => deepValueEqual val1 val2) && deepEntries rest m2
end

/-- The function `reflect.DeepEqual`. -/
def DeepEqual (x y : Iface) : Bool :=
  match x, y with
  | none, none => true
  | none, some _ => false
  | some _, none => false
  | some a, some b => sameType a b && deepValueEqual a b

/-- The name of a kind: `Kind.String()`. -/
def kindName : Kind → String
  | .Invalid => "invalid" | .Bool => "bool"
  | .Int => "int" | .Int8 => "int8" | .Int16 => "int16" | .Int32 => "int32" | .Int64 => "int64"
  | .Uint => "uint" | .Uint8 => "uint8" | .Uint16 => "uint16" | .Uint32 => "uint32"
  | .Uint64 => "uint64" | .Uintptr => "uintptr"
  | .Float32 => "float32" | .Float64 => "float64"
  | .Complex64 => "complex64" | .Complex128 => "complex128"
  | .Array => "array" | .Chan => "chan" | .Func => "func" | .Interface => "interface"
  | .Map => "map" | .Ptr => "ptr" | .Slice => "slice" | .String => "string"
  | .Struct => "struct" | .UnsafePointer => "unsafe.Pointer"

/-- What a Go panic carries, and what `recover` hands back: a value passed to `panic`, or an
error value (of the runtime, of a library or of the program) known by the text of its `Error`
method. -/
inductive PanicPayload where
  | value (v : Value)
  | error (text : String)

/-- The panic of a nil pointer dereference. -/
def nilDereference : PanicPayload :=
  .error "runtime error: invalid memory address or nil pointer dereference"

/-- The panic of package reflect when a method is called on a value of a kind it does not
support (`*reflect.ValueError`). -/
def valueError (method : String) (k : Kind) : PanicPayload :=
  .error ("reflect: call of " ++ method ++ " on " ++ kindName k ++ " Value")

/-- The method `reflect.Value.IsNil`; it panics on every kind that has no nil. -/
def Value.IsNil : Value → Except PanicPayload Bool
  | .nilSlice _ => .ok true
  | .slice _ _ _ => .ok false
  | .nilMap _ => .ok true
  | .map _ _ _ => .ok false
  | .nilPtr _ => .ok true
  | .ptr _ _ _ => .ok false
  | .nilChan _ => .ok true
  | .chan _ _ _ => .ok false
  | .nilFunc _ => .ok true
  | .func _ _ => .ok false
  | .ifaceNil _ => .ok true
  | .iface _ _ => .ok false
  | .unsafePointer _ addr => .ok (addr == 0)
  | v => .error (valueError "reflect.Value.IsNil" v.kind)

/-- The method `reflect.Value.Len` on the five kinds that `verify.go` measures: the number of
elements of an array or a slice, of entries of a map, of bytes of a string, of elements queued
in the buffer of a channel. It panics on the other kinds (the length of a pointer to an array,
which recent versions of Go also answer, is not modelled: `verify.go` never asks for it). -/
def Value.Len : Value → Except PanicPayload Int
  | .array _ elems => .ok elems.length
  | .nilSlice _ => .ok 0
  | .slice _ _ elems => .ok elems.length
  | .nilMap _ => .ok 0
  | .map _ _ entries => .ok entries.length
  | .nilChan _ => .ok 0
  | .chan _ _ buffered => .ok buffered
  | .string _ s => .ok s.utf8ByteSize
  | v => .error (valueError "reflect.Value.Len" v.kind)

/-! ## Package fmt -/

/-- The shortest decimal text of a floating-point number that reads back as the same number
(`strconv.FormatFloat(x, 'g', -1, bitSize)`, which `%v` uses). Its digits are not computed
here: the function is a parameter of the development. -/
abbrev FloatFormat := FloatKind → F64 → String

/-- Lower-case hexadecimal digits of a number. -/
def hex (n : Nat) : String := String.mk (Nat.toDigits 16 n)

/-- The method `fmtPointer` of package fmt under `%v`. -/
def fmtPointer (addr : Nat) : String :=
  if addr = 0 then "<nil>" else "0x" ++ hex addr

/-- Whether `%v` prints the target of a top-level pointer after an ampersand. -/
def printsTarget : Kind → Bool
  | .Array | .Slice | .Struct | .Map => true
  | _ => false

mutual
/-- The method `printValue` of package fmt under `%v`; `top` says that the depth is 0. -/
def printValue (ff : FloatFormat) (top : Bool) : Value → String
  | .bool _ b => if b then "true" else "false"
  | .int _ _ i => toString i
  | .float k _ x => ff k x
  | .string _ s => s
  | .nilMap _ => "map[]"
  | .map _ _ entries => "map[" ++ printEntries ff entries ++ "]"
  | .struct _ fields => "\x7b" ++ printList ff fields ++ "\x7d"
  | .ifaceNil _ => "<nil>"
  | .iface _ held => printValue ff false held
  | .array _ elems => "[" ++ printList ff elems ++ "]"
  | .nilSlice _ => "[]"
  | .slice _ _ elems => "[" ++ printList ff elems ++ "]"
  | .nilPtr _ => "<nil>"
  | .ptr _ addr target =>
    if top && addr != 0 && printsTarget target.kind then "&" ++ printValue ff false target
    else fmtPointer addr
  | .nilChan _ => "<nil>"
  | .chan _ addr _ => fmtPointer addr
  | .nilFunc _ => "<nil>"
  | .func _ addr => fmtPointer addr
  | .unsafePointer _ addr => fmtPointer addr
/-- Elements of an array or slice, or fields of a struct, separated by spaces. -/
def printList (ff : FloatFormat) : List Value → String
  | [] => ""
  | [x] => printValue ff false x
  | x :: y :: rest => printValue ff false x ++ " " ++ printList ff (y :: rest)
/-- Entries of a map, each as `key:value`, separated by spaces. -/
def printEntries (ff : FloatFormat) : List (Value × Value) → String
  | [] => ""
  | [(k, val)] => printValue ff false k ++ ":" ++ printValue ff false val
  | (k, val) :: e :: rest =>
    printValue ff false k ++ ":" ++ printValue ff false val ++ " " ++ printEntries ff (e :: rest)
end

/-- The verb `%v` on an argument of `Errorf`. -/
def fmtV (ff : FloatFormat) : Iface → String
  | none => "<nil>"
  | some v => printValue ff true v

/-- The verb `%T` on an argument of `Errorf`. -/
def fmtT : Iface → String
  | none => "<nil>"
  | some v => v.typeName

/-- The verb `%d` on an `int`. -/
def fmtD (i : Int) : String := toString i

/-- The verb `%v` on what `recover` returned. -/
def fmtRecovered (ff : FloatFormat) : PanicPayload → String
  | .value v => printValue ff true v
  | .error text => text

/-! ## The heap, and functions that may panic -/

/-- The part of a `testing.T` that `Errorf` touches. -/
structure TestingT where
  failed : Bool
  output : List String

/-- Verifier encapsula o valor e o estado do teste. -/
structure Verifier where
  t : Option Nat
  value : Iface
  message : String

/-- The objects that pointers refer to: the `testing.T` and the `Verifier` at each address, and
the address that the next allocation of a `Verifier` takes. -/
structure Heap where
  testing : Nat → TestingT
  verifier : Nat → Verifier
  next : Nat

/-- How a call ends: it returns a result, or it panics; either way it leaves a heap. -/
inductive Result (α : Type) where
  | ret (a : α) (h : Heap)
  | panic (p : PanicPayload) (h : Heap)

/-- A Go function: it runs on a heap. -/
def Go (α : Type) : Type := Heap → Result α

/-- Sequencing of Go statements: a panic skips what follows. -/
def Go.bind {α β : Type} (m : Go α) (f : α → Go β) : Go β := fun h =>
  match m h with
  | .ret a h1 => f a h1
  | .panic p h1 => .panic p h1

instance : Monad Go where
  pure a := fun h => .ret a h
  bind := Go.bind

/-- The heap a call leaves. -/
def Result.heap {α : Type} : Result α → Heap
  | .ret _ h => h
  | .panic _ h => h

/-- The result a call returns, if it returns. -/
def Result.returned {α : Type} : Result α → Option α
  | .ret a _ => some a
  | .panic _ _ => none

/-- Reading the fields of the Verifier behind a pointer. -/
def load (v : Option Nat) : Go Verifier := fun h =>
  match v with
  | none => .panic nilDereference h
  | some a => .ret (h.verifier a) h

/-- The heap after the test at address `a` has recorded one failure: the text is added to its
output and the test is marked as failed. -/
def Heap.log (h : Heap) (a : Nat) (text : String) : Heap :=
  { h with testing := Function.update h.testing a ⟨true, (h.testing a).output ++ [text]⟩ }

/-- The method `Errorf` of `*testing.T` with its text already formatted: the test records the
failure and goes on. -/
def Errorf (t : Option Nat) (text : String) : Go Unit := fun h =>
  match t with
  | none => .panic nilDereference h
  | some a => .ret () (h.log a text)

/-- The result of a library call that may panic. -/
def liftExcept {α : Type} : Except PanicPayload α → Go α
  | .ok a => fun h => .ret a h
  | .error p => fun h => .panic p h

/-- A function body with one deferred closure that calls `recover`, in a function whose result
has no name: the closure runs on the way out, with nil from `recover` after a normal return
and with the payload after a panic, which it thereby stops; the function then returns what its
`return` statement gave, or, when the body never reached one, the zero value of the result
type. -/
def deferRecover {α : Type} (zero : α) (body : Go α)
    (handler : Option PanicPayload → Go Unit) : Go α := fun h =>
  match body h with
  | .ret a h1 =>
    match handler none h1 with
    | .ret _ h2 => .ret a h2
    | .panic q h2 => .panic q h2
  | .panic p h1 =>
    match handler (some p) h1 with
    | .ret _ h2 => .ret zero h2
    | .panic q h2 => .panic q h2

/-- A call `fn()` of a function value: calling the nil function panics. -/
def call (fn : Option (Go Unit)) : Go Unit :=
  match fn with
  | none => fun h => .panic nilDereference h
  | some f => f

/-! ## Type assertions of the comma-ok form -/

/-- The assertion `x.(string)`. -/
def assertString : Iface → String × Bool
  | some (.string none s) => (s, true)
  | _ => ("", false)

/-- The assertion `x.(bool)`. -/
def assertBool : Iface → Bool × Bool
  | some (.bool none b) => (b, true)
  | _ => (false, false)

/-- The assertion `x.(float64)`. -/
def assertFloat64 : Iface → F64 × Bool
  | some (.float .float64 none x) => (x, true)
  | _ => (.fin false 0 0, false)

/-- The assertion `x.(int)`. -/
def assertInt : Iface → Int × Bool
  | some (.int .int none i) => (i, true)
  | _ => (0, false)

/-! ## The file verify.go -/

/-- Should inicializa o Verifier. -/
def Should (t : Option Nat) (value : Iface) : Go (Option Nat) := fun h =>
  .ret (some h.next)
    { h with
      verifier := Function.update h.verifier h.next ⟨t, value, ""⟩
      next := h.next + 1 }

/-- Message define uma mensagem personalizada. -/
def Message (v : Option Nat) (msg : String) : Go (Option Nat) := fun h =>
  match v with
  | none => .panic nilDereference h
  | some a =>
    .ret v { h with
      verifier := Function.update h.verifier a { h.verifier a with message := msg } }

/-- The text before the colon of a failure: the custom message when it is not empty, else the
default of the check. -/
def messageOr (custom dflt : String) : String :=
  if custom != "" then custom else dflt

/-- Be verifica igualdade estrita. -/
def Be (ff : FloatFormat) (v : Option Nat) (expected : Iface) : Go (Option Nat) := do
  let self ← load v
  if !DeepEqual self.value expected then
    let message := messageOr self.message "Expected values to have the same properties and values"
    Errorf self.t (message ++ ": expected " ++ fmtV ff expected ++ " (type " ++ fmtT expected
      ++ "), but got " ++ fmtV ff self.value ++ " (type " ++ fmtT self.value ++ ")")
  return v

/-- NotEqual verifica desigualdade. -/
def NotEqual (ff : FloatFormat) (v : Option Nat) (unexpected : Iface) : Go (Option Nat) := do
  let self ← load v
  if DeepEqual self.value unexpected then
    let message := messageOr self.message "Expected values to be different"
    Errorf self.t (message ++ ": expected not " ++ fmtV ff unexpected ++ " (type "
      ++ fmtT unexpected ++ "), but got " ++ fmtV ff self.value ++ " (type "
      ++ fmtT self.value ++ ")")
  return v

/-- The helper asString: the subject as a string, with a failure when it is not one. -/
def asString (ff : FloatFormat) (v : Option Nat) : Go (String × Bool) := do
  let self ← load v
  let (str, ok) := assertString self.value
  if !ok then
    Errorf self.t ("Expected a string, but got value " ++ fmtV ff self.value ++ " (type "
      ++ fmtT self.value ++ ")")
  return (str, ok)

/-- NotEmpty verifica se uma string não está vazia. -/
def NotEmpty (ff : FloatFormat) (v : Option Nat) : Go (Option Nat) := do
  let (str, ok) ← asString ff v
  if !ok then
    return v
  if str == "" then
    let self ← load v
    let message := messageOr self.message "Expected string to be not empty"
    Errorf self.t (message ++ ": string is empty")
  return v

/-- Empty verifica se uma string está vazia. -/
def Empty (ff : FloatFormat) (v : Option Nat) : Go (Option Nat) := do
  let (str, ok) ← asString ff v
  if !ok then
    return v
  if str != "" then
    let self ← load v
    let message := messageOr self.message "Expected string to be empty"
    Errorf self.t (message ++ ": string is not empty")
  return v

/-- The function isNil: isNil verifica se um valor é nil. -/
def isNil (value : Iface) : Except PanicPayload Bool :=
  match value with
  | none => .ok true
  | some x =>
    match x.kind with
    | .Chan | .Func | .Interface | .Map | .Ptr | .Slice => x.IsNil
    | _ => .ok false

/-- Nil verifica se o valor é nil. -/
def Nil (ff : FloatFormat) (v : Option Nat) : Go (Option Nat) := do
  let self ← load v
  if !(← liftExcept (isNil self.value)) then
    let message := messageOr self.message "Expected value to be nil"
    Errorf self.t (message ++ ": expected nil, but got " ++ fmtV ff self.value ++ " (type "
      ++ fmtT self.value ++ ")")
  return v

/-- NotNil verifica se o valor não é nil. -/
def NotNil (v : Option Nat) : Go (Option Nat) := do
  let self ← load v
  if ← liftExcept (isNil self.value) then
    let message := messageOr self.message "Expected value to not be nil"
    Errorf self.t (message ++ ": expected not nil, but got nil")
  return v

/-- BeTrue verifica se o valor booleano é true. -/
def BeTrue (ff : FloatFormat) (v : Option Nat) : Go (Option Nat) := do
  let self ← load v
  let (value, ok) := assertBool self.value
  if !ok || !value then
    let message := messageOr self.message "Expected value to be true"
    Errorf self.t (message ++ ": expected true, but got " ++ fmtV ff self.value ++ " (type "
      ++ fmtT self.value ++ ")")
  return v

/-- BeFalse verifica se o valor booleano é false. -/
def BeFalse (ff : FloatFormat) (v : Option Nat) : Go (Option Nat) := do
  let self ← load v
  let (value, ok) := assertBool self.value
  if !ok || value then
    let message := messageOr self.message "Expected value to be false"
    Errorf self.t (message ++ ": expected false, but got " ++ fmtV ff self.value ++ " (type "
      ++ fmtT self.value ++ ")")
  return v

/-- Len verifica o comprimento de um slice, mapa, canal, string ou array. -/
def Len (v : Option Nat) (expected : Int) : Go (Option Nat) := do
  let self ← load v
  match self.value with
  | none =>
    Errorf self.t "Cannot check length of nil value"
    return v
  | some val =>
    if val.kind != .Slice && val.kind != .Map && val.kind != .Chan && val.kind != .Array
        && val.kind != .String then
      Errorf self.t ("Expected a slice, map, channel, array, or string, but got "
        ++ fmtT self.value)
      return v
    let actual ← liftExcept val.Len
    if actual != expected then
      let message := messageOr self.message "Expected length to be equal"
      Errorf self.t (message ++ ": expected length " ++ fmtD expected ++ ", but got "
        ++ fmtD actual)
    return v

/-- The coercion that opens GT and LT, for the subject and for the threshold alike: the value
when it is a float64, else its conversion when it is an int, else nothing. -/
def toFloat64 (x : Iface) : Option F64 :=
  match assertFloat64 x with
  | (val, true) => some val
  | (_, false) =>
    match assertInt x with
    | (intVal, true) => some (F64.ofInt intVal)
    | (_, false) => none

/-- GT verifica se o valor é maior que o esperado. -/
def GT (ff : FloatFormat) (v : Option Nat) (threshold : Iface) : Go (Option Nat) := do
  let self ← load v
  match toFloat64 self.value with
  | none =>
    Errorf self.t ("Expected a numeric value, but got " ++ fmtV ff self.value ++ " (type "
      ++ fmtT self.value ++ ")")
    return v
  | some val =>
    match toFloat64 threshold with
    | none =>
      Errorf self.t ("Expected a numeric threshold, but got " ++ fmtV ff threshold ++ " (type "
        ++ fmtT threshold ++ ")")
      return v
    | some thr =>
      if F64.le val thr then
        let message := messageOr self.message "Expected value to be greater than threshold"
        Errorf self.t (message ++ ": expected > " ++ ff .float64 thr ++ ", but got "
          ++ ff .float64 val)
      return v

/-- LT verifica se o valor é menor que o esperado. -/
def LT (ff : FloatFormat) (v : Option Nat) (threshold : Iface) : Go (Option Nat) := do
  let self ← load v
  match toFloat64 self.value with
  | none =>
    Errorf self.t ("Expected a numeric value, but got " ++ fmtV ff self.value ++ " (type "
      ++ fmtT self.value ++ ")")
    return v
  | some val =>
    match toFloat64 threshold with
    | none =>
      Errorf self.t ("Expected a numeric threshold, but got " ++ fmtV ff threshold ++ " (type "
        ++ fmtT threshold ++ ")")
      return v
    | some thr =>
      if F64.ge val thr then
        let message := messageOr self.message "Expected value to be lower than threshold"
        Errorf self.t (message ++ ": expected < " ++ ff .float64 thr ++ ", but got "
          ++ ff .float64 val)
      return v

/-- The text before the colon of a failure of Panic and NotPanic: the first optional message
when one is passed, else the default. -/
def firstOr (msg : List String) (dflt : String) : String :=
  match msg with
  | [] => dflt
  | m :: _ => m

/-- Panic (ExpectPanic) verifica se uma função causa um pânico. -/
def Panic (v : Option Nat) (fn : Option (Go Unit)) (msg : List String) : Go (Option Nat) :=
  deferRecover none (do call fn; return v) fun r =>
    match r with
    | none => do
      let message := firstOr msg "Expected function to panic"
      let self ← load v
      Errorf self.t (message ++ ": expected panic, but function did not panic")
    | some _ => pure ()

/-- NotPanic (Expect NotPanic) verifica se uma função não causa um pânico. -/
def NotPanic (ff : FloatFormat) (v : Option Nat) (fn : Option (Go Unit)) (msg : List String) :
    Go (Option Nat) :=
  deferRecover none (do call fn; return v) fun r =>
    match r with
    | some p => do
      let message := firstOr msg "Expected function to not panic"
      let self ← load v
      Errorf self.t (message ++ ": expected no panic, but function panicked with "
        ++ fmtRecovered ff p)
    | none => pure ()

/-- The eleven checks on the subject, each with its argument. -/
inductive Check where
  | Be (expected : Iface)
  | NotEqual (unexpected : Iface)
  | NotEmpty
  | Empty
  | Nil
  | NotNil
  | BeTrue
  | BeFalse
  | Len (expected : Int)
  | GT (threshold : Iface)
  | LT (threshold : Iface)

/-- The call of a check on a session. -/
def Check.run (ff : FloatFormat) (v : Option Nat) : Check → Go (Option Nat)
  | .Be expected => Verify.Be ff v expected
  | .NotEqual unexpected => Verify.NotEqual ff v unexpected
  | .NotEmpty => Verify.NotEmpty ff v
  | .Empty => Verify.Empty ff v
  | .Nil => Verify.Nil ff v
  | .NotNil => Verify.NotNil v
  | .BeTrue => Verify.BeTrue ff v
  | .BeFalse => Verify.BeFalse ff v
  | .Len expected => Verify.Len v expected
  | .GT threshold => Verify.GT ff v threshold
  | .LT threshold => Verify.LT ff v threshold

/-- The default message of a check. -/
def Check.defaultMessage : Check → String
  | .Be _ => "Expected values to have the same properties and values"
  | .NotEqual _ => "Expected values to be different"
  | .NotEmpty => "Expected string to be not empty"
  | .Empty => "Expected string to be empty"
  | .Nil => "Expected value to be nil"
  | .NotNil => "Expected value to not be nil"
  | .BeTrue => "Expected value to be true"
  | .BeFalse => "Expected value to be false"
  | .Len _ => "Expected length to be equal"
  | .GT _ => "Expected value to be greater than threshold"
  | .LT _ => "Expected value to be lower than threshold"

/-! ## Vocabulary of the statements -/

/-- The kinds on which isNil asks `IsNil` (the case list of its switch). -/
def nilCapable : Kind → Bool
  | .Chan | .Func | .Interface | .Map | .Ptr | .Slice => true
  | _ => false

/-- The kinds that Len measures (the kinds named in its test of the kind). -/
def measurable (k : Kind) : Bool :=
  k == .Slice || k == .Map || k == .Chan || k == .Array || k == .String

/-! ## Sample data -/

/-- A heap with nothing recorded and no session. -/
def emptyHeap : Heap := ⟨fun _ => ⟨false, []⟩, fun _ => ⟨none, none, ""⟩, 0⟩

/-- The heap after `Should(t, x)` on the empty heap, with the `testing.T` at address 0: the
session is at address 0. -/
def session (x : Iface) : Heap := (Should (some 0) x emptyHeap).heap

/-- A stand-in for the float formatting of package strconv, for sample runs only. -/
def sampleFloat : FloatFormat := fun _ _ => "?"

/-- The Go value `int(i)`. -/
def goInt (i : Int) : Iface := some (.int .int none i)

/-- The Go value `float64(x)`. -/
def goFloat (x : F64) : Iface := some (.float .float64 none x)

/-- The Go value `string(s)`. -/
def goString (s : String) : Iface := some (.string none s)

/-- A function that panics with the string `"boom"`. -/
def boom : Option (Go Unit) := some fun h => .panic (.value (.string none "boom")) h

/-- A function that returns at once. -/
def quiet : Option (Go Unit) := some fun h => .ret () h

/-- The type `[]int`. -/
def intSlice : GoType := ⟨"[]int", 1⟩

/-- The type `*int`. -/
def intPtr : GoType := ⟨"*int", 2⟩

/-- The nil slice `[]int(nil)`. -/
def nilInts : Iface := some (.nilSlice intSlice)

/-- A slice `[]int` of the given elements, at the given address. -/
def ints (base : Nat) (elems : List Int) : Iface :=
  some (.slice intSlice base (elems.map fun i => .int .int none i))

/-- An operand of GT and LT that the checks accept: an `int` or a `float64`. -/
inductive Numeric where
  | int (i : Int)
  | float (x : F64)

/-- The operand as a Go value. -/
def Numeric.iface : Numeric → Iface
  | .int i => goInt i
  | .float x => goFloat x

/-- The operand as GT and LT compare it: an `int` through the conversion `float64(i)`. -/
def Numeric.toF64 : Numeric → F64
  | .int i => F64.ofInt i
  | .float x => x

/-- The precondition failure of a check on the subject `x`, when there is one: the text that
the check records before it gives up (NotEmpty and Empty through asString, Len on a nil or
unmeasurable subject, GT and LT on an operand that is neither a float64 nor an int). -/
def Check.precondition (ff : FloatFormat) (x : Iface) : Check → Option String
  | .NotEmpty | .Empty =>
    if (assertString x).2 then none
    else some ("Expected a string, but got value " ++ fmtV ff x ++ " (type " ++ fmtT x ++ ")")
  | .Len _ =>
    match x with
    | none => some "Cannot check length of nil value"
    | some val =>
      if measurable val.kind then none
      else some ("Expected a slice, map, channel, array, or string, but got " ++ fmtT x)
  | .GT thr | .LT thr =>
    match toFloat64 x, toFloat64 thr with
    | none, _ =>
      some ("Expected a numeric value, but got " ++ fmtV ff x ++ " (type " ++ fmtT x ++ ")")
    | some _, none =>
      some ("Expected a numeric threshold, but got " ++ fmtV ff thr ++ " (type " ++ fmtT thr
        ++ ")")
    | some _, some _ => none
  | _ => none

/-- The heap after a check has recorded what `o` says on the test at `tp`: nothing, or one
failure with the given text. -/
def Heap.record (h : Heap) (tp : Nat) (o : Option String) : Heap :=
  match o with
  | none => h
  | some text => h.log tp text

/-- The Go value `bool(b)`. -/
def goBool (b : Bool) : Iface := some (.bool none b)

/-- The nil pointer `(*int)(nil)`. -/
def nilIntPtr : Iface := some (.nilPtr intPtr)

/-- The empty slice `[]int{}`, at the given address. -/
def emptyInts (base : Nat) : Iface := some (.slice intSlice base [])

/-- The type `[]float64`. -/
def floatSlice : GoType := ⟨"[]float64", 3⟩

/-- Two distinct struct types without fields that both print as `main.T`, such as a type `T`
declared in each of two functions. -/
def firstT : GoType := ⟨"main.T", 4⟩

/-- The second of the two types that print as `main.T`. -/
def secondT : GoType := ⟨"main.T", 5⟩

/-! ## Lemmas on the execution model -/

theorem load_some (a : Nat) (h : Heap) : load (some a) h = .ret (h.verifier a) h := rfl

theorem Errorf_some (a : Nat) (text : String) (h : Heap) :
    Errorf (some a) text h = .ret () (h.log a text) := rfl

theorem bind_apply {α β : Type} (m : Go α) (f : α → Go β) (h : Heap) :
    (m >>= f) h = match m h with
      | .ret a h1 => f a h1
      | .panic p h1 => .panic p h1 := rfl

theorem pure_apply {α : Type} (a : α) (h : Heap) : (pure a : Go α) h = .ret a h := rfl

theorem log_verifier (h : Heap) (a : Nat) (text : String) : (h.log a text).verifier = h.verifier :=
  rfl

/-! ## What each method does on a session whose sink is not nil -/

theorem Be_run (ff : FloatFormat) (a tp : Nat) (x e : Iface) (m : String) (h : Heap)
    (hv : h.verifier a = ⟨some tp, x, m⟩) :
    Be ff (some a) e h =
      if DeepEqual x e then .ret (some a) h
      else .ret (some a) (h.log tp (messageOr m
        "Expected values to have the same properties and values" ++ ": expected " ++ fmtV ff e
        ++ " (type " ++ fmtT e ++ "), but got " ++ fmtV ff x ++ " (type " ++ fmtT x ++ ")")) := by
  simp only [Be, bind_apply, load_some, hv]
  cases DeepEqual x e <;> simp [bind_apply, Errorf_some, pure_apply]

theorem NotEqual_run (ff : FloatFormat) (a tp : Nat) (x e : Iface) (m : String) (h : Heap)
    (hv : h.verifier a = ⟨some tp, x, m⟩) :
    NotEqual ff (some a) e h =
      if DeepEqual x e then
        .ret (some a) (h.log tp (messageOr m "Expected values to be different"
          ++ ": expected not " ++ fmtV ff e ++ " (type " ++ fmtT e ++ "), but got " ++ fmtV ff x
          ++ " (type " ++ fmtT x ++ ")"))
      else .ret (some a) h := by
  simp only [NotEqual, bind_apply, load_some, hv]
  cases DeepEqual x e <;> simp [bind_apply, Errorf_some, pure_apply]

theorem asString_run (ff : FloatFormat) (a tp : Nat) (x : Iface) (m : String) (h : Heap)
    (hv : h.verifier a = ⟨some tp, x, m⟩) :
    asString ff (some a) h =
      if (assertString x).2 then .ret (assertString x) h
      else .ret (assertString x) (h.log tp ("Expected a string, but got value " ++ fmtV ff x
        ++ " (type " ++ fmtT x ++ ")")) := by
  simp only [asString, bind_apply, load_some, hv]
  generalize assertString x = p
  rcases p with ⟨s, _ | _⟩ <;> simp [bind_apply, Errorf_some, pure_apply]

theorem NotEmpty_run (ff : FloatFormat) (a tp : Nat) (x : Iface) (m : String) (h : Heap)
    (hv : h.verifier a = ⟨some tp, x, m⟩) :
    NotEmpty ff (some a) h =
      if (assertString x).2 then
        if (assertString x).1 == "" then
          .ret (some a) (h.log tp (messageOr m "Expected string to be not empty"
            ++ ": string is empty"))
        else .ret (some a) h
      else .ret (some a) (h.log tp ("Expected a string, but got value " ++ fmtV ff x
        ++ " (type " ++ fmtT x ++ ")")) := by
  simp only [NotEmpty, bind_apply, asString_run ff a tp x m h hv]
  generalize assertString x = p
  rcases p with ⟨s, _ | _⟩ <;> simp [bind_apply, Errorf_some, pure_apply]
  by_cases hs : s = "" <;> simp [hs, bind_apply, Errorf_some, pure_apply, load_some, hv]

theorem Empty_run (ff : FloatFormat) (a tp : Nat) (x : Iface) (m : String) (h : Heap)
    (hv : h.verifier a = ⟨some tp, x, m⟩) :
    Empty ff (some a) h =
      if (assertString x).2 then
        if (assertString x).1 != "" then
          .ret (some a) (h.log tp (messageOr m "Expected string to be empty"
            ++ ": string is not empty"))
        else .ret (some a) h
      else .ret (some a) (h.log tp ("Expected a string, but got value " ++ fmtV ff x
        ++ " (type " ++ fmtT x ++ ")")) := by
  simp only [Empty, bind_apply, asString_run ff a tp x m h hv]
  generalize assertString x = p
  rcases p with ⟨s, _ | _⟩ <;> simp [bind_apply, Errorf_some, pure_apply]
  by_cases hs : s = "" <;> simp [hs, bind_apply, Errorf_some, pure_apply, load_some, hv]

theorem Nil_run (ff : FloatFormat) (a tp : Nat) (x : Iface) (m : String) (h : Heap) (b : Bool)
    (hv : h.verifier a = ⟨some tp, x, m⟩) (hb : isNil x = .ok b) :
    Nil ff (some a) h =
      if b then .ret (some a) h
      else .ret (some a) (h.log tp (messageOr m "Expected value to be nil"
        ++ ": expected nil, but got " ++ fmtV ff x ++ " (type " ++ fmtT x ++ ")")) := by
  simp only [Nil, bind_apply, load_some, hv, hb, liftExcept]
  cases b <;> simp [bind_apply, Errorf_some, pure_apply]

theorem NotNil_run (a tp : Nat) (x : Iface) (m : String) (h : Heap) (b : Bool)
    (hv : h.verifier a = ⟨some tp, x, m⟩) (hb : isNil x = .ok b) :
    NotNil (some a) h =
      if b then
        .ret (some a) (h.log tp (messageOr m "Expected value to not be nil"
          ++ ": expected not nil, but got nil"))
      else .ret (some a) h := by
  simp only [NotNil, bind_apply, load_some, hv, hb, liftExcept]
  cases b <;> simp [bind_apply, Errorf_some, pure_apply]

theorem BeTrue_run (ff : FloatFormat) (a tp : Nat) (x : Iface) (m : String) (h : Heap)
    (hv : h.verifier a = ⟨some tp, x, m⟩) :
    BeTrue ff (some a) h =
      if (assertBool x).2 && (assertBool x).1 then .ret (some a) h
      else .ret (some a) (h.log tp (messageOr m "Expected value to be true"
        ++ ": expected true, but got " ++ fmtV ff x ++ " (type " ++ fmtT x ++ ")")) := by
  simp only [BeTrue, bind_apply, load_some, hv]
  generalize assertBool x = p
  rcases p with ⟨_ | _, _ | _⟩ <;> simp [bind_apply, Errorf_some, pure_apply]

theorem BeFalse_run (ff : FloatFormat) (a tp : Nat) (x : Iface) (m : String) (h : Heap)
    (hv : h.verifier a = ⟨some tp, x, m⟩) :
    BeFalse ff (some a) h =
      if (assertBool x).2 && !(assertBool x).1 then .ret (some a) h
      else .ret (some a) (h.log tp (messageOr m "Expected value to be false"
        ++ ": expected false, but got " ++ fmtV ff x ++ " (type " ++ fmtT x ++ ")")) := by
  simp only [BeFalse, bind_apply, load_some, hv]
  generalize assertBool x = p
  rcases p with ⟨_ | _, _ | _⟩ <;> simp [bind_apply, Errorf_some, pure_apply]

theorem Len_run_nil (a tp : Nat) (m : String) (n : Int) (h : Heap)
    (hv : h.verifier a = ⟨some tp, none, m⟩) :
    Len (some a) n h = .ret (some a) (h.log tp "Cannot check length of nil value") := by
  simp [Len, bind_apply, load_some, hv, Errorf_some, pure_apply]

theorem Len_run_other (a tp : Nat) (val : Value) (m : String) (n : Int) (h : Heap)
    (hv : h.verifier a = ⟨some tp, some val, m⟩) (hk : measurable val.kind = false) :
    Len (some a) n h = .ret (some a) (h.log tp
      ("Expected a slice, map, channel, array, or string, but got " ++ fmtT (some val))) := by
  simp only [Len, bind_apply, load_some, hv]
  cases hkind : val.kind <;> simp [hkind, measurable] at hk <;>
    simp [bind_apply, Errorf_some, pure_apply]

theorem Len_run (a tp : Nat) (val : Value) (m : String) (n len : Int) (h : Heap)
    (hv : h.verifier a = ⟨some tp, some val, m⟩) (hk : measurable val.kind = true)
    (hl : val.Len = .ok len) :
    Len (some a) n h =
      if len = n then .ret (some a) h
      else .ret (some a) (h.log tp (messageOr m "Expected length to be equal"
        ++ ": expected length " ++ fmtD n ++ ", but got " ++ fmtD len)) := by
  simp only [Len, bind_apply, load_some, hv, hl, liftExcept]
  cases hkind : val.kind <;> simp [hkind, measurable] at hk <;>
    by_cases hn : len = n <;> simp [hn, bind_apply, Errorf_some, pure_apply]

theorem GT_run (ff : FloatFormat) (a tp : Nat) (x thr : Iface) (m : String) (h : Heap)
    (hv : h.verifier a = ⟨some tp, x, m⟩) :
    GT ff (some a) thr h =
      match toFloat64 x, toFloat64 thr with
      | none, _ => .ret (some a) (h.log tp ("Expected a numeric value, but got " ++ fmtV ff x
          ++ " (type " ++ fmtT x ++ ")"))
      | some _, none => .ret (some a) (h.log tp ("Expected a numeric threshold, but got "
          ++ fmtV ff thr ++ " (type " ++ fmtT thr ++ ")"))
      | some val, some t =>
        if F64.le val t then
          .ret (some a) (h.log tp (messageOr m "Expected value to be greater than threshold"
            ++ ": expected > " ++ ff .float64 t ++ ", but got " ++ ff .float64 val))
        else .ret (some a) h := by
  simp only [GT, bind_apply, load_some, hv]
  cases toFloat64 x <;> cases toFloat64 thr <;> simp [bind_apply, Errorf_some, pure_apply]
  split <;> simp [bind_apply, Errorf_some, pure_apply]

theorem LT_run (ff : FloatFormat) (a tp : Nat) (x thr : Iface) (m : String) (h : Heap)
    (hv : h.verifier a = ⟨some tp, x, m⟩) :
    LT ff (some a) thr h =
      match toFloat64 x, toFloat64 thr with
      | none, _ => .ret (some a) (h.log tp ("Expected a numeric value, but got " ++ fmtV ff x
          ++ " (type " ++ fmtT x ++ ")"))
      | some _, none => .ret (some a) (h.log tp ("Expected a numeric threshold, but got "
          ++ fmtV ff thr ++ " (type " ++ fmtT thr ++ ")"))
      | some val, some t =>
        if F64.ge val t then
          .ret (some a) (h.log tp (messageOr m "Expected value to be lower than threshold"
            ++ ": expected < " ++ ff .float64 t ++ ", but got " ++ ff .float64 val))
        else .ret (some a) h := by
  simp only [LT, bind_apply, load_some, hv]
  cases toFloat64 x <;> cases toFloat64 thr <;> simp [bind_apply, Errorf_some, pure_apply]
  split <;> simp [bind_apply, Errorf_some, pure_apply]

theorem Panic_run_panicked (a : Nat) (fn : Option (Go Unit)) (msg : List String) (h h1 : Heap)
    (p : PanicPayload) (hf : call fn h = .panic p h1) :
    Panic (some a) fn msg h = .ret none h1 := by
  simp [Panic, deferRecover, bind_apply, hf, pure_apply]

theorem Panic_run_returned (a tp : Nat) (x : Iface) (m : String) (fn : Option (Go Unit))
    (msg : List String) (h h1 : Heap) (hf : call fn h = .ret () h1)
    (hv : h1.verifier a = ⟨some tp, x, m⟩) :
    Panic (some a) fn msg h = .ret (some a) (h1.log tp (firstOr msg "Expected function to panic"
      ++ ": expected panic, but function did not panic")) := by
  simp [Panic, deferRecover, bind_apply, hf, pure_apply, load_some, hv, Errorf_some]

theorem NotPanic_run_panicked (ff : FloatFormat) (a tp : Nat) (x : Iface) (m : String)
    (fn : Option (Go Unit)) (msg : List String) (h h1 : Heap) (p : PanicPayload)
    (hf : call fn h = .panic p h1) (hv : h1.verifier a = ⟨some tp, x, m⟩) :
    NotPanic ff (some a) fn msg h = .ret none (h1.log tp
      (firstOr msg "Expected function to not panic"
        ++ ": expected no panic, but function panicked with " ++ fmtRecovered ff p)) := by
  simp [NotPanic, deferRecover, bind_apply, hf, pure_apply, load_some, hv, Errorf_some]

theorem NotPanic_run_returned (ff : FloatFormat) (a : Nat) (fn : Option (Go Unit))
    (msg : List String) (h h1 : Heap) (hf : call fn h = .ret () h1) :
    NotPanic ff (some a) fn msg h = .ret (some a) h1 := by
  simp [NotPanic, deferRecover, bind_apply, hf, pure_apply]

/-- The function isNil never panics: it asks `IsNil` only of kinds that answer. -/
theorem isNil_ok (x : Iface) : ∃ b, isNil x = .ok b := by
  rcases x with _ | v
  · exact ⟨true, rfl⟩
  · cases v <;> first
      | exact ⟨_, rfl⟩
      | (rename_i k _ _; cases k <;> exact ⟨_, rfl⟩)

/-- On a measurable kind `Len` of package reflect answers. -/
theorem Len_ok (val : Value) (hk : measurable val.kind = true) : ∃ len, val.Len = .ok len := by
  cases val <;> first
    | exact ⟨_, rfl⟩
    | (rename_i k _ _; cases k <;> simp [measurable, Value.kind, IntKind.kind] at hk)
    | simp [measurable, Value.kind] at hk

/-! ## The claims -/

theorem log_output (h : Heap) (a : Nat) (text : String) :
    ((h.log a text).testing a).output = (h.testing a).output ++ [text] := by
  simp [Heap.log]

theorem isNil_of_not_nilCapable (v : Value) (hk : nilCapable v.kind = false) :
    isNil (some v) = .ok false := by
  cases v <;> first
    | rfl
    | (rename_i k _ _; cases k <;> rfl)
    | simp [nilCapable, Value.kind] at hk

theorem isNil_of_IsNil (v : Value) (hk : nilCapable v.kind = true) (hn : v.IsNil = .ok true) :
    isNil (some v) = .ok true := by
  cases v <;> first
    | exact hn
    | (rename_i k _ _; cases k <;> simp [nilCapable, Value.kind, IntKind.kind] at hk)
    | simp [nilCapable, Value.kind] at hk

/-- C4: on a subject that is the nil interface, or a value of one of the kinds pointer,
interface, func, chan, map, slice whose reference is unset (`IsNil` answers true), Nil records
no failure and NotNil records exactly one. -/
theorem Nil_passes_on_nil (ff : FloatFormat) (a tp : Nat) (x : Iface) (m : String) (h : Heap)
    (hv : h.verifier a = ⟨some tp, x, m⟩)
    (hx : x = none ∨ ∃ v, x = some v ∧ nilCapable v.kind = true ∧ v.IsNil = .ok true) :
    Nil ff (some a) h = .ret (some a) h ∧
    NotNil (some a) h = .ret (some a) (h.log tp
      (messageOr m "Expected value to not be nil" ++ ": expected not nil, but got nil")) := by
  have hb : isNil x = .ok true := by
    rcases hx with rfl | ⟨v, rfl, hk, hn⟩
    · rfl
    · exact isNil_of_IsNil v hk hn
  rw [Nil_run ff a tp x m h true hv hb, NotNil_run a tp x m h true hv hb]
  simp

/-- C4, on a sample: the nil slice `[]int(nil)`. -/
theorem Nil_passes_on_nil_witness :
    (session nilInts).verifier 0 = ⟨some 0, nilInts, ""⟩ ∧
    (nilInts = none ∨
      ∃ v, nilInts = some v ∧ nilCapable v.kind = true ∧ v.IsNil = .ok true) ∧
    Nil sampleFloat (some 0) (session nilInts) = .ret (some 0) (session nilInts) ∧
    NotNil (some 0) (session nilInts) = .ret (some 0) ((session nilInts).log 0
      "Expected value to not be nil: expected not nil, but got nil") :=
  ⟨rfl, Or.inr ⟨_, rfl, rfl, rfl⟩,
    Nil_passes_on_nil sampleFloat 0 0 nilInts "" (session nilInts) rfl
      (Or.inr ⟨_, rfl, rfl, rfl⟩)⟩

/-- C5: on a subject of any kind other than pointer, interface, func, chan, map and slice
(integers, floats, booleans, strings, structs, arrays, ...), whatever its value, Nil records
exactly one failure and NotNil records none. -/
theorem Nil_fails_on_value_kinds (ff : FloatFormat) (a tp : Nat) (v : Value) (m : String)
    (h : Heap) (hv : h.verifier a = ⟨some tp, some v, m⟩) (hk : nilCapable v.kind = false) :
    Nil ff (some a) h = .ret (some a) (h.log tp (messageOr m "Expected value to be nil"
      ++ ": expected nil, but got " ++ fmtV ff (some v) ++ " (type " ++ fmtT (some v) ++ ")")) ∧
    NotNil (some a) h = .ret (some a) h := by
  have hb : isNil (some v) = .ok false := isNil_of_not_nilCapable v hk
  rw [Nil_run ff a tp (some v) m h false hv hb, NotNil_run a tp (some v) m h false hv hb]
  simp

/-- C5, on a sample: the zero value `int(0)`. -/
theorem Nil_fails_on_value_kinds_witness :
    (session (goInt 0)).verifier 0 = ⟨some 0, goInt 0, ""⟩ ∧
    nilCapable (Value.int .int none 0).kind = false ∧
    Nil sampleFloat (some 0) (session (goInt 0)) = .ret (some 0) ((session (goInt 0)).log 0
      "Expected value to be nil: expected nil, but got 0 (type int)") ∧
    NotNil (some 0) (session (goInt 0)) = .ret (some 0) (session (goInt 0)) :=
  ⟨rfl, rfl, Nil_fails_on_value_kinds sampleFloat 0 0 (.int .int none 0) "" _ rfl rfl⟩

/-- C6: on a subject of a measurable kind (string, slice, map, array, chan) and for every
expected `n`, the subject has a length (the number of bytes of a string, of elements of a slice
or array, of entries of a map, of elements queued in a channel); Len(n) records no failure when
the length is `n`, and otherwise exactly one failure, which states `n` and the length. -/
theorem Len_compares_length (a tp : Nat) (val : Value) (m : String) (n : Int) (h : Heap)
    (hv : h.verifier a = ⟨some tp, some val, m⟩) (hk : measurable val.kind = true) :
    ∃ len : Int, val.Len = .ok len ∧
      (∀ named s, val = .string named s → len = s.utf8ByteSize) ∧
      (∀ ty base elems, val = .slice ty base elems → len = elems.length) ∧
      (∀ ty elems, val = .array ty elems → len = elems.length) ∧
      (∀ ty addr entries, val = .map ty addr entries → len = entries.length) ∧
      (∀ ty addr buffered, val = .chan ty addr buffered → len = buffered) ∧
      (len = n → Len (some a) n h = .ret (some a) h) ∧
      (len ≠ n → Len (some a) n h = .ret (some a) (h.log tp
        (messageOr m "Expected length to be equal" ++ ": expected length " ++ fmtD n
          ++ ", but got " ++ fmtD len))) := by
  obtain ⟨len, hl⟩ := Len_ok val hk
  refine ⟨len, hl, ?_, ?_, ?_, ?_, ?_, ?_, ?_⟩
  · rintro named s rfl
    simpa [Value.Len] using hl.symm
  · rintro ty base elems rfl
    simpa [Value.Len] using hl.symm
  · rintro ty elems rfl
    simpa [Value.Len] using hl.symm
  · rintro ty addr entries rfl
    simpa [Value.Len] using hl.symm
  · rintro ty addr buffered rfl
    simpa [Value.Len] using hl.symm
  · intro hn
    rw [Len_run a tp val m n len h hv hk hl]
    simp [hn]
  · intro hn
    rw [Len_run a tp val m n len h hv hk hl]
    simp [hn]

/-- C6, on samples: Len(3) records nothing on the slice `[]int{7, 8, 9}`, and on the slice
`[]int{7, 8}` it records that it expected length 3 and got 2. -/
theorem Len_compares_length_witness :
    (session (ints 1 [7, 8])).verifier 0 = ⟨some 0, ints 1 [7, 8], ""⟩ ∧
    measurable (Value.slice intSlice 1 [.int .int none 7, .int .int none 8]).kind = true ∧
    Len (some 0) 3 (session (ints 1 [7, 8, 9])) = .ret (some 0) (session (ints 1 [7, 8, 9])) ∧
    Len (some 0) 3 (session (ints 1 [7, 8])) = .ret (some 0) ((session (ints 1 [7, 8])).log 0
      "Expected length to be equal: expected length 3, but got 2") := by
  refine ⟨rfl, rfl, ?_, ?_⟩
  · obtain ⟨len, hl, -, hs, -, -, -, heq, -⟩ :=
      Len_compares_length 0 0 (.slice intSlice 1 [.int .int none 7, .int .int none 8,
        .int .int none 9]) "" 3 (session (ints 1 [7, 8, 9])) rfl rfl
    exact heq (hs _ _ _ rfl)
  · obtain ⟨len, hl, -, hs, -, -, -, -, hne⟩ :=
      Len_compares_length 0 0 (.slice intSlice 1 [.int .int none 7, .int .int none 8]) "" 3
        (session (ints 1 [7, 8])) rfl rfl
    have h2 : len = 2 := hs _ _ _ rfl
    subst h2
    exact hne (by decide)

theorem toFloat64_numeric (s : Numeric) : toFloat64 s.iface = some s.toF64 := by
  cases s <;> rfl

theorem ofInt_small (i : Int) (hi : i.natAbs < 2 ^ 53) :
    F64.ofInt i = .fin (decide (i < 0)) i.natAbs 0 := by
  have hk : F64.excessBits 64 i.natAbs = 0 := by
    rw [show (64 : Nat) = 63 + 1 from rfl, F64.excessBits]
    exact if_pos hi
  simp [F64.ofInt, F64.roundNat, hk]

theorem signed_natAbs (i : Int) : F64.signed (decide (i < 0)) i.natAbs = i := by
  unfold F64.signed
  by_cases h1 : i < 0
  · simp only [h1, decide_True, if_true]
    omega
  · simp only [h1, decide_False, Bool.false_eq_true, if_false]
    omega

theorem le_ofInt_small (i j : Int) (hi : i.natAbs < 2 ^ 53) (hj : j.natAbs < 2 ^ 53) :
    F64.le (F64.ofInt i) (F64.ofInt j) = true ↔ i ≤ j := by
  rw [ofInt_small i hi, ofInt_small j hj]
  simp only [F64.le, F64.scaled, decide_eq_true_eq, signed_natAbs, min_self, sub_self,
    Int.toNat_zero, pow_zero, mul_one]

/-- C7, the claim as it stands fails: the subject `int(9007199254740993)` is greater than the
threshold `int(9007199254740992)`, and yet GT records a failure (both become the same
float64). -/
theorem GT_fails_on_greater_int :
    ¬ ((9007199254740993 : Int) ≤ 9007199254740992) ∧
    ((GT sampleFloat (some 0) (goInt 9007199254740992)
      (session (goInt 9007199254740993))).heap.testing 0).output.length = 1 := by
  decide

/-- C7, amended: for a subject `s` and a threshold `t` that are each an int or a float64, GT
records a failure exactly when `float64(s) <= float64(t)` and LT exactly when
`float64(s) >= float64(t)`, in the order of IEEE-754 and with each int first converted to the
nearest float64; between ints of magnitude below 2^53 that order is the order of the
integers. -/
theorem GT_LT_compare_as_float64 (ff : FloatFormat) (a tp : Nat) (s t : Numeric) (m : String)
    (h : Heap) (hv : h.verifier a = ⟨some tp, s.iface, m⟩) :
    (F64.le s.toF64 t.toF64 = true →
      ∃ text, GT ff (some a) t.iface h = .ret (some a) (h.log tp text)) ∧
    (F64.le s.toF64 t.toF64 = false → GT ff (some a) t.iface h = .ret (some a) h) ∧
    (F64.ge s.toF64 t.toF64 = true →
      ∃ text, LT ff (some a) t.iface h = .ret (some a) (h.log tp text)) ∧
    (F64.ge s.toF64 t.toF64 = false → LT ff (some a) t.iface h = .ret (some a) h) ∧
    (∀ i j : Int, i.natAbs < 2 ^ 53 → j.natAbs < 2 ^ 53 →
      ((F64.le (Numeric.int i).toF64 (Numeric.int j).toF64 = true ↔ i ≤ j) ∧
       (F64.ge (Numeric.int i).toF64 (Numeric.int j).toF64 = true ↔ j ≤ i))) := by
  rw [GT_run ff a tp s.iface t.iface m h hv, LT_run ff a tp s.iface t.iface m h hv,
    toFloat64_numeric s, toFloat64_numeric t]
  refine ⟨?_, ?_, ?_, ?_, ?_⟩
  · intro hle
    simp [hle]
  · intro hle
    simp [hle]
  · intro hge
    simp [hge]
  · intro hge
    simp [hge]
  · intro i j hi hj
    exact ⟨le_ofInt_small i j hi hj, le_ofInt_small j i hj hi⟩

/-- C7 amended, on samples: GT(5) records no failure on the subject 10 and one on the
subject 5. -/
theorem GT_LT_compare_as_float64_witness :
    (session (goInt 10)).verifier 0 = ⟨some 0, (Numeric.int 10).iface, ""⟩ ∧
    (session (goInt 5)).verifier 0 = ⟨some 0, (Numeric.int 5).iface, ""⟩ ∧
    GT sampleFloat (some 0) (goInt 5) (session (goInt 10)) = .ret (some 0) (session (goInt 10)) ∧
    ∃ text, GT sampleFloat (some 0) (goInt 5) (session (goInt 5))
      = .ret (some 0) ((session (goInt 5)).log 0 text) :=
  ⟨rfl, rfl,
    (GT_LT_compare_as_float64 sampleFloat 0 0 (.int 10) (.int 5) "" _ rfl).2.1 (by decide),
    (GT_LT_compare_as_float64 sampleFloat 0 0 (.int 5) (.int 5) "" _ rfl).1 (by decide)⟩

/-- C8: when the call of `fn` panics, Panic(fn) returns normally (the panic stops there) with
the heap as `fn` left it, no failure added; when the call returns, Panic(fn) records exactly
one failure, whose message is the first optional message if one is passed and
"Expected function to panic" if none is. -/
theorem Panic_expects_panic (a tp : Nat) (x : Iface) (m : String) (fn : Option (Go Unit))
    (msg : List String) (h h1 : Heap) :
    (∀ p, call fn h = .panic p h1 → Panic (some a) fn msg h = .ret none h1) ∧
    (call fn h = .ret () h1 → h1.verifier a = ⟨some tp, x, m⟩ →
      Panic (some a) fn msg h = .ret (some a) (h1.log tp (firstOr msg "Expected function to panic"
        ++ ": expected panic, but function did not panic"))) ∧
    firstOr [] "Expected function to panic" = "Expected function to panic" ∧
    (∀ o rest, firstOr (o :: rest) "Expected function to panic" = o) :=
  ⟨fun p hf => Panic_run_panicked a fn msg h h1 p hf,
    fun hf hv => Panic_run_returned a tp x m fn msg h h1 hf hv,
    rfl, fun _ _ => rfl⟩

/-- C8, on samples: a function that panics with "boom" leaves nothing recorded; a function
that returns is reported with the default message, or with the message passed. -/
theorem Panic_expects_panic_witness :
    call boom (session none) = .panic (.value (.string none "boom")) (session none) ∧
    call quiet (session none) = .ret () (session none) ∧
    (session none).verifier 0 = ⟨some 0, none, ""⟩ ∧
    Panic (some 0) boom [] (session none) = .ret none (session none) ∧
    Panic (some 0) quiet [] (session none) = .ret (some 0) ((session none).log 0
      "Expected function to panic: expected panic, but function did not panic") ∧
    Panic (some 0) quiet ["it must panic"] (session none) = .ret (some 0) ((session none).log 0
      "it must panic: expected panic, but function did not panic") :=
  ⟨rfl, rfl, rfl,
    (Panic_expects_panic 0 0 none "" boom [] (session none) (session none)).1 _ rfl,
    (Panic_expects_panic 0 0 none "" quiet [] (session none) (session none)).2.1 rfl rfl,
    (Panic_expects_panic 0 0 none "" quiet ["it must panic"] (session none)
      (session none)).2.1 rfl rfl⟩

/-- C9: when the call of `fn` returns, NotPanic(fn) records no failure; when it panics with the
payload `p`, NotPanic(fn) returns normally (the panic stops there) and records exactly one
failure, whose text ends with the payload as `%v` prints it. -/
theorem NotPanic_reports_payload (ff : FloatFormat) (a tp : Nat) (x : Iface) (m : String)
    (fn : Option (Go Unit)) (msg : List String) (h h1 : Heap) :
    (call fn h = .ret () h1 → NotPanic ff (some a) fn msg h = .ret (some a) h1) ∧
    (∀ p, call fn h = .panic p h1 → h1.verifier a = ⟨some tp, x, m⟩ →
      NotPanic ff (some a) fn msg h = .ret none (h1.log tp
        (firstOr msg "Expected function to not panic"
          ++ ": expected no panic, but function panicked with " ++ fmtRecovered ff p))) :=
  ⟨fun hf => NotPanic_run_returned ff a fn msg h h1 hf,
    fun p hf hv => NotPanic_run_panicked ff a tp x m fn msg h h1 p hf hv⟩

/-- C9, on samples: a function that returns leaves nothing recorded; a function that panics
with "boom" is reported with that payload. -/
theorem NotPanic_reports_payload_witness :
    call quiet (session none) = .ret () (session none) ∧
    call boom (session none) = .panic (.value (.string none "boom")) (session none) ∧
    (session none).verifier 0 = ⟨some 0, none, ""⟩ ∧
    NotPanic sampleFloat (some 0) quiet [] (session none) = .ret (some 0) (session none) ∧
    NotPanic sampleFloat (some 0) boom [] (session none) = .ret none ((session none).log 0
      "Expected function to not panic: expected no panic, but function panicked with boom") :=
  ⟨rfl, rfl, rfl,
    (NotPanic_reports_payload sampleFloat 0 0 none "" quiet [] (session none)
      (session none)).1 rfl,
    (NotPanic_reports_payload sampleFloat 0 0 none "" boom [] (session none)
      (session none)).2 _ rfl rfl⟩

/-- C10: on a session whose sink is not nil, each of the eleven checks returns normally, for
every subject and every argument; the function isNil never panics (it asks `IsNil` only of
kinds that answer), nor does the measure of the length on a measurable kind. -/
theorem checks_never_panic (ff : FloatFormat) (c : Check) (a tp : Nat) (x : Iface) (m : String)
    (h : Heap) (hv : h.verifier a = ⟨some tp, x, m⟩) :
    (∃ h1, c.run ff (some a) h = .ret (some a) h1) ∧
    (∃ b, isNil x = .ok b) ∧
    (∀ val : Value, measurable val.kind = true → ∃ len, val.Len = .ok len) := by
  refine ⟨?_, isNil_ok x, fun val hk => Len_ok val hk⟩
  cases c with
  | Be e =>
    simp only [Check.run]
    rw [Be_run ff a tp x e m h hv]
    split <;> exact ⟨_, rfl⟩
  | NotEqual e =>
    simp only [Check.run]
    rw [NotEqual_run ff a tp x e m h hv]
    split <;> exact ⟨_, rfl⟩
  | NotEmpty =>
    simp only [Check.run]
    rw [NotEmpty_run ff a tp x m h hv]
    split
    · split <;> exact ⟨_, rfl⟩
    · exact ⟨_, rfl⟩
  | Empty =>
    simp only [Check.run]
    rw [Empty_run ff a tp x m h hv]
    split
    · split <;> exact ⟨_, rfl⟩
    · exact ⟨_, rfl⟩
  | Nil =>
    obtain ⟨b, hb⟩ := isNil_ok x
    simp only [Check.run]
    rw [Nil_run ff a tp x m h b hv hb]
    split <;> exact ⟨_, rfl⟩
  | NotNil =>
    obtain ⟨b, hb⟩ := isNil_ok x
    simp only [Check.run]
    rw [NotNil_run a tp x m h b hv hb]
    split <;> exact ⟨_, rfl⟩
  | BeTrue =>
    simp only [Check.run]
    rw [BeTrue_run ff a tp x m h hv]
    split <;> exact ⟨_, rfl⟩
  | BeFalse =>
    simp only [Check.run]
    rw [BeFalse_run ff a tp x m h hv]
    split <;> exact ⟨_, rfl⟩
  | Len n =>
    simp only [Check.run]
    rcases x with _ | val
    · exact ⟨_, Len_run_nil a tp m n h hv⟩
    · cases hk : measurable val.kind
      · exact ⟨_, Len_run_other a tp val m n h hv hk⟩
      · obtain ⟨len, hl⟩ := Len_ok val hk
        rw [Len_run a tp val m n len h hv hk hl]
        split <;> exact ⟨_, rfl⟩
  | GT thr =>
    simp only [Check.run]
    rw [GT_run ff a tp x thr m h hv]
    split
    · exact ⟨_, rfl⟩
    · exact ⟨_, rfl⟩
    · split <;> exact ⟨_, rfl⟩
  | LT thr =>
    simp only [Check.run]
    rw [LT_run ff a tp x thr m h hv]
    split
    · exact ⟨_, rfl⟩
    · exact ⟨_, rfl⟩
    · split <;> exact ⟨_, rfl⟩

/-- C10, on a sample: Len on the subject `int(0)`, which has no length, returns normally. -/
theorem checks_never_panic_witness :
    (session (goInt 0)).verifier 0 = ⟨some 0, goInt 0, ""⟩ ∧
    (∃ h1, (Check.Len 3).run sampleFloat (some 0) (session (goInt 0)) = .ret (some 0) h1) ∧
    (∃ b, isNil (goInt 0) = .ok b) ∧
    (∀ val : Value, measurable val.kind = true → ∃ len, val.Len = .ok len) :=
  ⟨rfl, checks_never_panic sampleFloat (.Len 3) 0 0 (goInt 0) "" (session (goInt 0)) rfl⟩

/-- C1 (the code departs from it): on the session `Should(t, nil)` and with a function that
panics, Panic and NotPanic return the nil pointer, not the session: their `return v` is never
reached and the result, which has no name, keeps its zero value after the recovery. A check
chained on that result dereferences nil and panics. -/
theorem Panic_returns_nil_after_recover :
    (Panic (some 0) boom [] (session none)).returned = some none ∧
    (NotPanic sampleFloat (some 0) boom [] (session none)).returned = some none ∧
    ((Panic (some 0) boom [] >>= fun r => Be sampleFloat r none) (session none)).returned
      = none := by
  decide

theorem messageOr_custom (m d : String) (hm : m ≠ "") : messageOr m d = m := by
  simp [messageOr, hm]

theorem messageOr_empty (d : String) : messageOr "" d = d := by
  simp [messageOr]

theorem Message_run (a : Nat) (t : Option Nat) (x : Iface) (m0 m : String) (h : Heap)
    (hv : h.verifier a = ⟨t, x, m0⟩) :
    ∃ hc, Message (some a) m h = .ret (some a) hc ∧ hc.verifier a = ⟨t, x, m⟩ ∧
      hc.testing = h.testing := by
  refine ⟨_, rfl, ?_, rfl⟩
  simp [hv]

/-- What a check does on a session whose custom message `m` is not empty, set against what it
does on a session of the same subject without a custom message. -/
theorem custom_message_aux (ff : FloatFormat) (c : Check) (a tp : Nat) (x : Iface) (m : String)
    (hc : Heap) (hm : m ≠ "") (hvc : hc.verifier a = ⟨some tp, x, m⟩) :
    match c.precondition ff x with
    | some text => c.run ff (some a) hc = .ret (some a) (hc.log tp text)
    | none =>
      (c.run ff (some a) hc = .ret (some a) hc ∧
        ∀ h0 : Heap, h0.verifier a = ⟨some tp, x, ""⟩ → c.run ff (some a) h0 = .ret (some a) h0) ∨
      ∃ detail, c.run ff (some a) hc = .ret (some a) (hc.log tp (m ++ detail)) ∧
        ∀ h0 : Heap, h0.verifier a = ⟨some tp, x, ""⟩ →
          c.run ff (some a) h0 = .ret (some a) (h0.log tp (c.defaultMessage ++ detail)) := by
  cases c with
  | Be e =>
    simp only [Check.precondition, Check.run, Check.defaultMessage]
    by_cases hd : DeepEqual x e = true
    · refine Or.inl ⟨?_, fun h0 hv0 => ?_⟩
      · rw [Be_run ff a tp x e m hc hvc, if_pos hd]
      · rw [Be_run ff a tp x e "" h0 hv0, if_pos hd]
    · refine Or.inr ⟨": expected " ++ (fmtV ff e ++ (" (type " ++ (fmtT e ++ ("), but got "
        ++ (fmtV ff x ++ (" (type " ++ (fmtT x ++ ")"))))))), ?_, fun h0 hv0 => ?_⟩
      · rw [Be_run ff a tp x e m hc hvc, if_neg hd, messageOr_custom m _ hm]
        simp only [String.append_assoc]
      · rw [Be_run ff a tp x e "" h0 hv0, if_neg hd, messageOr_empty]
        simp only [String.append_assoc]
  | NotEqual e =>
    simp only [Check.precondition, Check.run, Check.defaultMessage]
    by_cases hd : DeepEqual x e = true
    · refine Or.inr ⟨": expected not " ++ (fmtV ff e ++ (" (type " ++ (fmtT e
        ++ ("), but got " ++ (fmtV ff x ++ (" (type " ++ (fmtT x ++ ")"))))))), ?_,
        fun h0 hv0 => ?_⟩
      · rw [NotEqual_run ff a tp x e m hc hvc, if_pos hd, messageOr_custom m _ hm]
        simp only [String.append_assoc]
      · rw [NotEqual_run ff a tp x e "" h0 hv0, if_pos hd, messageOr_empty]
        simp only [String.append_assoc]
    · refine Or.inl ⟨?_, fun h0 hv0 => ?_⟩
      · rw [NotEqual_run ff a tp x e m hc hvc, if_neg hd]
      · rw [NotEqual_run ff a tp x e "" h0 hv0, if_neg hd]
  | NotEmpty =>
    simp only [Check.precondition, Check.run, Check.defaultMessage]
    cases hok : (assertString x).2
    · simp only [Bool.false_eq_true, if_false]
      rw [NotEmpty_run ff a tp x m hc hvc, hok]
      simp
    · simp only [if_true]
      by_cases hs : ((assertString x).1 == "") = true
      · refine Or.inr ⟨": string is empty", ?_, fun h0 hv0 => ?_⟩
        · rw [NotEmpty_run ff a tp x m hc hvc, hok, if_pos rfl, if_pos hs,
            messageOr_custom m _ hm]
        · rw [NotEmpty_run ff a tp x "" h0 hv0, hok, if_pos rfl, if_pos hs, messageOr_empty]
      · refine Or.inl ⟨?_, fun h0 hv0 => ?_⟩
        · rw [NotEmpty_run ff a tp x m hc hvc, hok, if_pos rfl, if_neg hs]
        · rw [NotEmpty_run ff a tp x "" h0 hv0, hok, if_pos rfl, if_neg hs]
  | Empty =>
    simp only [Check.precondition, Check.run, Check.defaultMessage]
    cases hok : (assertString x).2
    · simp only [Bool.false_eq_true, if_false]
      rw [Empty_run ff a tp x m hc hvc, hok]
      simp
    · simp only [if_true]
      by_cases hs : ((assertString x).1 != "") = true
      · refine Or.inr ⟨": string is not empty", ?_, fun h0 hv0 => ?_⟩
        · rw [Empty_run ff a tp x m hc hvc, hok, if_pos rfl, if_pos hs,
            messageOr_custom m _ hm]
        · rw [Empty_run ff a tp x "" h0 hv0, hok, if_pos rfl, if_pos hs, messageOr_empty]
      · refine Or.inl ⟨?_, fun h0 hv0 => ?_⟩
        · rw [Empty_run ff a tp x m hc hvc, hok, if_pos rfl, if_neg hs]
        · rw [Empty_run ff a tp x "" h0 hv0, hok, if_pos rfl, if_neg hs]
  | Nil =>
    simp only [Check.precondition, Check.run, Check.defaultMessage]
    obtain ⟨b, hb⟩ := isNil_ok x
    cases b
    · refine Or.inr ⟨": expected nil, but got " ++ (fmtV ff x ++ (" (type " ++ (fmtT x
        ++ ")"))), ?_, fun h0 hv0 => ?_⟩
      · rw [Nil_run ff a tp x m hc false hvc hb, messageOr_custom m _ hm]
        simp only [String.append_assoc, Bool.false_eq_true, if_false]
      · rw [Nil_run ff a tp x "" h0 false hv0 hb, messageOr_empty]
        simp only [String.append_assoc, Bool.false_eq_true, if_false]
    · refine Or.inl ⟨?_, fun h0 hv0 => ?_⟩
      · rw [Nil_run ff a tp x m hc true hvc hb, if_pos rfl]
      · rw [Nil_run ff a tp x "" h0 true hv0 hb, if_pos rfl]
  | NotNil =>
    simp only [Check.precondition, Check.run, Check.defaultMessage]
    obtain ⟨b, hb⟩ := isNil_ok x
    cases b
    · refine Or.inl ⟨?_, fun h0 hv0 => ?_⟩
      · rw [NotNil_run a tp x m hc false hvc hb]
        simp only [Bool.false_eq_true, if_false]
      · rw [NotNil_run a tp x "" h0 false hv0 hb]
        simp only [Bool.false_eq_true, if_false]
    · refine Or.inr ⟨": expected not nil, but got nil", ?_, fun h0 hv0 => ?_⟩
      · rw [NotNil_run a tp x m hc true hvc hb, if_pos rfl, messageOr_custom m _ hm]
      · rw [NotNil_run a tp x "" h0 true hv0 hb, if_pos rfl, messageOr_empty]
  | BeTrue =>
    simp only [Check.precondition, Check.run, Check.defaultMessage]
    by_cases hd : ((assertBool x).2 && (assertBool x).1) = true
    · refine Or.inl ⟨?_, fun h0 hv0 => ?_⟩
      · rw [BeTrue_run ff a tp x m hc hvc, if_pos hd]
      · rw [BeTrue_run ff a tp x "" h0 hv0, if_pos hd]
    · refine Or.inr ⟨": expected true, but got " ++ (fmtV ff x ++ (" (type " ++ (fmtT x
        ++ ")"))), ?_, fun h0 hv0 => ?_⟩
      · rw [BeTrue_run ff a tp x m hc hvc, if_neg hd, messageOr_custom m _ hm]
        simp only [String.append_assoc]
      · rw [BeTrue_run ff a tp x "" h0 hv0, if_neg hd, messageOr_empty]
        simp only [String.append_assoc]
  | BeFalse =>
    simp only [Check.precondition, Check.run, Check.defaultMessage]
    by_cases hd : ((assertBool x).2 && !(assertBool x).1) = true
    · refine Or.inl ⟨?_, fun h0 hv0 => ?_⟩
      · rw [BeFalse_run ff a tp x m hc hvc, if_pos hd]
      · rw [BeFalse_run ff a tp x "" h0 hv0, if_pos hd]
    · refine Or.inr ⟨": expected false, but got " ++ (fmtV ff x ++ (" (type " ++ (fmtT x
        ++ ")"))), ?_, fun h0 hv0 => ?_⟩
      · rw [BeFalse_run ff a tp x m hc hvc, if_neg hd, messageOr_custom m _ hm]
        simp only [String.append_assoc]
      · rw [BeFalse_run ff a tp x "" h0 hv0, if_neg hd, messageOr_empty]
        simp only [String.append_assoc]
  | Len n =>
    simp only [Check.precondition, Check.run, Check.defaultMessage]
    rcases x with _ | val
    · exact Len_run_nil a tp m n hc hvc
    · cases hk : measurable val.kind
      · simp only [hk, Bool.false_eq_true, if_false]
        exact Len_run_other a tp val m n hc hvc hk
      · simp only [hk, if_true]
        obtain ⟨len, hl⟩ := Len_ok val hk
        by_cases hn : len = n
        · refine Or.inl ⟨?_, fun h0 hv0 => ?_⟩
          · rw [Len_run a tp val m n len hc hvc hk hl, if_pos hn]
          · rw [Len_run a tp val "" n len h0 hv0 hk hl, if_pos hn]
        · refine Or.inr ⟨": expected length " ++ (fmtD n ++ (", but got " ++ fmtD len)), ?_,
            fun h0 hv0 => ?_⟩
          · rw [Len_run a tp val m n len hc hvc hk hl, if_neg hn, messageOr_custom m _ hm]
            simp only [String.append_assoc]
          · rw [Len_run a tp val "" n len h0 hv0 hk hl, if_neg hn, messageOr_empty]
            simp only [String.append_assoc]
  | GT thr =>
    simp only [Check.precondition, Check.run, Check.defaultMessage]
    rw [GT_run ff a tp x thr m hc hvc]
    cases hx : toFloat64 x with
    | none => rfl
    | some val =>
      cases ht : toFloat64 thr with
      | none => rfl
      | some t =>
        simp only []
        by_cases hd : F64.le val t = true
        · refine Or.inr ⟨": expected > " ++ (ff .float64 t ++ (", but got " ++ ff .float64 val)),
            ?_, fun h0 hv0 => ?_⟩
          · rw [if_pos hd, messageOr_custom m _ hm]
            simp only [String.append_assoc]
          · rw [GT_run ff a tp x thr "" h0 hv0, hx, ht]
            simp only []
            rw [if_pos hd, messageOr_empty]
            simp only [String.append_assoc]
        · refine Or.inl ⟨?_, fun h0 hv0 => ?_⟩
          · rw [if_neg hd]
          · rw [GT_run ff a tp x thr "" h0 hv0, hx, ht]
            simp only []
            rw [if_neg hd]
  | LT thr =>
    simp only [Check.precondition, Check.run, Check.defaultMessage]
    rw [LT_run ff a tp x thr m hc hvc]
    cases hx : toFloat64 x with
    | none => rfl
    | some val =>
      cases ht : toFloat64 thr with
      | none => rfl
      | some t =>
        simp only []
        by_cases hd : F64.ge val t = true
        · refine Or.inr ⟨": expected < " ++ (ff .float64 t ++ (", but got " ++ ff .float64 val)),
            ?_, fun h0 hv0 => ?_⟩
          · rw [if_pos hd, messageOr_custom m _ hm]
            simp only [String.append_assoc]
          · rw [LT_run ff a tp x thr "" h0 hv0, hx, ht]
            simp only []
            rw [if_pos hd, messageOr_empty]
            simp only [String.append_assoc]
        · refine Or.inl ⟨?_, fun h0 hv0 => ?_⟩
          · rw [if_neg hd]
          · rw [LT_run ff a tp x thr "" h0 hv0, hx, ht]
            simp only []
            rw [if_neg hd]

/-- C2, the claim as it stands fails: after `Message("custom")`, a failure of Panic, one of
NotPanic and the failure of NotEmpty on a subject that is not a string are recorded without the
custom text. -/
theorem custom_message_not_used_everywhere :
    ((Panic (some 0) quiet [] (Message (some 0) "custom" (session none)).heap).heap.testing
      0).output = ["Expected function to panic: expected panic, but function did not panic"] ∧
    ((NotPanic sampleFloat (some 0) boom []
      (Message (some 0) "custom" (session none)).heap).heap.testing 0).output
      = ["Expected function to not panic: expected no panic, but function panicked with boom"] ∧
    ((NotEmpty sampleFloat (some 0) (Message (some 0) "custom" (session none)).heap).heap.testing
      0).output = ["Expected a string, but got value <nil> (type <nil>)"] := by
  decide

/-- C2, amended: once `Message(m)` with `m` not empty has run on a session, whatever message it
had before, each of the eleven checks Be, NotEqual, NotEmpty, Empty, Nil, NotNil, BeTrue,
BeFalse, Len, GT, LT does one of three things: it records its precondition failure, with the
fixed text of that failure; or it passes, as it does on a session without a custom message; or
it records one failure whose text is `m` followed by the detail that, on a session without a
custom message, follows the default message of the check. Panic and NotPanic take the message
of their failure from their own optional argument, not from `m`. -/
theorem custom_message_replaces_default (ff : FloatFormat) (c : Check) (a tp : Nat) (x : Iface)
    (m0 m : String) (h : Heap) (hm : m ≠ "") (hv : h.verifier a = ⟨some tp, x, m0⟩) :
    ∃ hc, Message (some a) m h = .ret (some a) hc ∧
      (match c.precondition ff x with
      | some text => c.run ff (some a) hc = .ret (some a) (hc.log tp text)
      | none =>
        (c.run ff (some a) hc = .ret (some a) hc ∧
          ∀ h0 : Heap, h0.verifier a = ⟨some tp, x, ""⟩ →
            c.run ff (some a) h0 = .ret (some a) h0) ∨
        ∃ detail, c.run ff (some a) hc = .ret (some a) (hc.log tp (m ++ detail)) ∧
          ∀ h0 : Heap, h0.verifier a = ⟨some tp, x, ""⟩ →
            c.run ff (some a) h0 = .ret (some a) (h0.log tp (c.defaultMessage ++ detail))) ∧
      (∀ fn msg, call fn hc = .ret () hc →
        Panic (some a) fn msg hc = .ret (some a) (hc.log tp
          (firstOr msg "Expected function to panic"
            ++ ": expected panic, but function did not panic"))) ∧
      (∀ fn msg p, call fn hc = .panic p hc →
        NotPanic ff (some a) fn msg hc = .ret none (hc.log tp
          (firstOr msg "Expected function to not panic"
            ++ ": expected no panic, but function panicked with " ++ fmtRecovered ff p))) := by
  obtain ⟨hc, hrun, hvc, -⟩ := Message_run a (some tp) x m0 m h hv
  exact ⟨hc, hrun, custom_message_aux ff c a tp x m hc hm hvc,
    fun fn msg hf => Panic_run_returned a tp x m fn msg hc hc hf hvc,
    fun fn msg p hf => NotPanic_run_panicked ff a tp x m fn msg hc hc p hf hvc⟩

/-- C2 amended, on a sample: the check Be(3) on the subject 4, after `Message("custom")`; it
has no precondition, and it records "custom" followed by the detail that follows its default
message on a session without a custom message. -/
theorem custom_message_replaces_default_witness :
    "custom" ≠ "" ∧
    (session (goInt 4)).verifier 0 = ⟨some 0, goInt 4, ""⟩ ∧
    ∃ hc, Message (some 0) "custom" (session (goInt 4)) = .ret (some 0) hc ∧
      match (Check.Be (goInt 3)).precondition sampleFloat (goInt 4) with
      | some text => Be sampleFloat (some 0) (goInt 3) hc = .ret (some 0) (hc.log 0 text)
      | none =>
        (Be sampleFloat (some 0) (goInt 3) hc = .ret (some 0) hc ∧
          ∀ h0 : Heap, h0.verifier 0 = ⟨some 0, goInt 4, ""⟩ →
            Be sampleFloat (some 0) (goInt 3) h0 = .ret (some 0) h0) ∨
        ∃ detail,
          Be sampleFloat (some 0) (goInt 3) hc = .ret (some 0) (hc.log 0 ("custom" ++ detail)) ∧
          ∀ h0 : Heap, h0.verifier 0 = ⟨some 0, goInt 4, ""⟩ →
            Be sampleFloat (some 0) (goInt 3) h0 = .ret (some 0) (h0.log 0
              ("Expected values to have the same properties and values" ++ detail)) := by
  obtain ⟨hc, hrun, hcheck, -, -⟩ :=
    custom_message_replaces_default sampleFloat (.Be (goInt 3)) 0 0 (goInt 4) "" "custom"
      (session (goInt 4)) (by decide) rfl
  exact ⟨by decide, rfl, hc, hrun, hcheck⟩

/-- What a check records is a function of the sink, the subject and the message of its
session: on every heap that holds that session the check returns the session and records the
same thing. -/
theorem run_verdict (ff : FloatFormat) (c : Check) (a tp : Nat) (x : Iface) (m : String) :
    ∃ o : Option String, ∀ h : Heap, h.verifier a = ⟨some tp, x, m⟩ →
      c.run ff (some a) h = .ret (some a) (h.record tp o) := by
  cases c with
  | Be e =>
    by_cases hd : DeepEqual x e = true
    · exact ⟨none, fun h hv => by
        show Be ff (some a) e h = _
        rw [Be_run ff a tp x e m h hv, if_pos hd]; rfl⟩
    · exact ⟨some _, fun h hv => by
        show Be ff (some a) e h = _
        rw [Be_run ff a tp x e m h hv, if_neg hd]; rfl⟩
  | NotEqual e =>
    by_cases hd : DeepEqual x e = true
    · exact ⟨some _, fun h hv => by
        show NotEqual ff (some a) e h = _
        rw [NotEqual_run ff a tp x e m h hv, if_pos hd]; rfl⟩
    · exact ⟨none, fun h hv => by
        show NotEqual ff (some a) e h = _
        rw [NotEqual_run ff a tp x e m h hv, if_neg hd]; rfl⟩
  | NotEmpty =>
    by_cases hok : (assertString x).2 = true
    · by_cases hs : ((assertString x).1 == "") = true
      · exact ⟨some _, fun h hv => by
          show NotEmpty ff (some a) h = _
          rw [NotEmpty_run ff a tp x m h hv, if_pos hok, if_pos hs]; rfl⟩
      · exact ⟨none, fun h hv => by
          show NotEmpty ff (some a) h = _
          rw [NotEmpty_run ff a tp x m h hv, if_pos hok, if_neg hs]; rfl⟩
    · exact ⟨some _, fun h hv => by
        show NotEmpty ff (some a) h = _
        rw [NotEmpty_run ff a tp x m h hv, if_neg hok]; rfl⟩
  | Empty =>
    by_cases hok : (assertString x).2 = true
    · by_cases hs : ((assertString x).1 != "") = true
      · exact ⟨some _, fun h hv => by
          show Empty ff (some a) h = _
          rw [Empty_run ff a tp x m h hv, if_pos hok, if_pos hs]; rfl⟩
      · exact ⟨none, fun h hv => by
          show Empty ff (some a) h = _
          rw [Empty_run ff a tp x m h hv, if_pos hok, if_neg hs]; rfl⟩
    · exact ⟨some _, fun h hv => by
        show Empty ff (some a) h = _
        rw [Empty_run ff a tp x m h hv, if_neg hok]; rfl⟩
  | Nil =>
    obtain ⟨b, hb⟩ := isNil_ok x
    cases b
    · exact ⟨some _, fun h hv => by
        show Nil ff (some a) h = _
        rw [Nil_run ff a tp x m h false hv hb]; rfl⟩
    · exact ⟨none, fun h hv => by
        show Nil ff (some a) h = _
        rw [Nil_run ff a tp x m h true hv hb]; rfl⟩
  | NotNil =>
    obtain ⟨b, hb⟩ := isNil_ok x
    cases b
    · exact ⟨none, fun h hv => by
        show NotNil (some a) h = _
        rw [NotNil_run a tp x m h false hv hb]; rfl⟩
    · exact ⟨some _, fun h hv => by
        show NotNil (some a) h = _
        rw [NotNil_run a tp x m h true hv hb]; rfl⟩
  | BeTrue =>
    by_cases hd : ((assertBool x).2 && (assertBool x).1) = true
    · exact ⟨none, fun h hv => by
        show BeTrue ff (some a) h = _
        rw [BeTrue_run ff a tp x m h hv, if_pos hd]; rfl⟩
    · exact ⟨some _, fun h hv => by
        show BeTrue ff (some a) h = _
        rw [BeTrue_run ff a tp x m h hv, if_neg hd]; rfl⟩
  | BeFalse =>
    by_cases hd : ((assertBool x).2 && !(assertBool x).1) = true
    · exact ⟨none, fun h hv => by
        show BeFalse ff (some a) h = _
        rw [BeFalse_run ff a tp x m h hv, if_pos hd]; rfl⟩
    · exact ⟨some _, fun h hv => by
        show BeFalse ff (some a) h = _
        rw [BeFalse_run ff a tp x m h hv, if_neg hd]; rfl⟩
  | Len n =>
    rcases x with _ | val
    · exact ⟨some _, fun h hv => Len_run_nil a tp m n h hv⟩
    · cases hk : measurable val.kind
      · exact ⟨some _, fun h hv => Len_run_other a tp val m n h hv hk⟩
      · obtain ⟨len, hl⟩ := Len_ok val hk
        by_cases hn : len = n
        · exact ⟨none, fun h hv => by
            show Len (some a) n h = _
            rw [Len_run a tp val m n len h hv hk hl, if_pos hn]; rfl⟩
        · exact ⟨some _, fun h hv => by
            show Len (some a) n h = _
            rw [Len_run a tp val m n len h hv hk hl, if_neg hn]; rfl⟩
  | GT thr =>
    cases hx : toFloat64 x with
    | none =>
      exact ⟨some _, fun h hv => by
        show GT ff (some a) thr h = _
        rw [GT_run ff a tp x thr m h hv, hx]; rfl⟩
    | some val =>
      cases ht : toFloat64 thr with
      | none =>
        exact ⟨some _, fun h hv => by
          show GT ff (some a) thr h = _
          rw [GT_run ff a tp x thr m h hv, hx, ht]; rfl⟩
      | some t =>
        by_cases hd : F64.le val t = true
        · exact ⟨some _, fun h hv => by
            show GT ff (some a) thr h = _
            rw [GT_run ff a tp x thr m h hv, hx, ht]
            simp only []
            rw [if_pos hd]; rfl⟩
        · exact ⟨none, fun h hv => by
            show GT ff (some a) thr h = _
            rw [GT_run ff a tp x thr m h hv, hx, ht]
            simp only []
            rw [if_neg hd]; rfl⟩
  | LT thr =>
    cases hx : toFloat64 x with
    | none =>
      exact ⟨some _, fun h hv => by
        show LT ff (some a) thr h = _
        rw [LT_run ff a tp x thr m h hv, hx]; rfl⟩
    | some val =>
      cases ht : toFloat64 thr with
      | none =>
        exact ⟨some _, fun h hv => by
          show LT ff (some a) thr h = _
          rw [LT_run ff a tp x thr m h hv, hx, ht]; rfl⟩
      | some t =>
        by_cases hd : F64.ge val t = true
        · exact ⟨some _, fun h hv => by
            show LT ff (some a) thr h = _
            rw [LT_run ff a tp x thr m h hv, hx, ht]
            simp only []
            rw [if_pos hd]; rfl⟩
        · exact ⟨none, fun h hv => by
            show LT ff (some a) thr h = _
            rw [LT_run ff a tp x thr m h hv, hx, ht]
            simp only []
            rw [if_neg hd]; rfl⟩

theorem DeepEqual_nil_left (y : Iface) : DeepEqual none y = true ↔ y = none := by
  cases y <;> simp [DeepEqual]

theorem DeepEqual_nil_right (x : Iface) : DeepEqual x none = true ↔ x = none := by
  cases x <;> simp [DeepEqual]

theorem sameType_self (kindOf : Kind) (ty : Option Nat) (v1 v2 : Value)
    (h1 : v1.kind = kindOf) (h2 : v2.kind = kindOf) (t1 : v1.typeId = ty)
    (t2 : v2.typeId = ty) : sameType v1 v2 = true := by
  simp [sameType, h1, h2, t1, t2]

theorem DeepEqual_empty_slices (ty : GoType) (b1 b2 : Nat) :
    DeepEqual (some (.slice ty b1 [])) (some (.slice ty b2 [])) = true := by
  have h : DeepEqual (some (.slice ty b1 [])) (some (.slice ty b2 []))
      = (sameType (.slice ty b1 []) (.slice ty b2 []) &&
          (sameType (.slice ty b1 []) (.slice ty b2 []) && (true && (b1 == b2 || true)))) := rfl
  have hs : sameType (.slice ty b1 []) (.slice ty b2 []) = true :=
    sameType_self .Slice (some ty.id) _ _ rfl rfl rfl rfl
  rw [h, hs]
  simp

theorem DeepEqual_empty_maps (ty : GoType) (a1 a2 : Nat) :
    DeepEqual (some (.map ty a1 [])) (some (.map ty a2 [])) = true := by
  have h : DeepEqual (some (.map ty a1 [])) (some (.map ty a2 []))
      = (sameType (.map ty a1 []) (.map ty a2 []) &&
          (sameType (.map ty a1 []) (.map ty a2 []) && (true && (a1 == a2 || true)))) := rfl
  have hs : sameType (.map ty a1 []) (.map ty a2 []) = true :=
    sameType_self .Map (some ty.id) _ _ rfl rfl rfl rfl
  rw [h, hs]
  simp

theorem DeepEqual_nil_slices (ty : GoType) :
    DeepEqual (some (.nilSlice ty)) (some (.nilSlice ty)) = true := by
  have h : DeepEqual (some (.nilSlice ty)) (some (.nilSlice ty))
      = (sameType (.nilSlice ty) (.nilSlice ty) &&
          (sameType (.nilSlice ty) (.nilSlice ty) && true)) := rfl
  have hs : sameType (.nilSlice ty) (.nilSlice ty) = true :=
    sameType_self .Slice (some ty.id) _ _ rfl rfl rfl rfl
  rw [h, hs]
  rfl

theorem DeepEqual_nil_maps (ty : GoType) :
    DeepEqual (some (.nilMap ty)) (some (.nilMap ty)) = true := by
  have h : DeepEqual (some (.nilMap ty)) (some (.nilMap ty))
      = (sameType (.nilMap ty) (.nilMap ty) &&
          (sameType (.nilMap ty) (.nilMap ty) && true)) := rfl
  have hs : sameType (.nilMap ty) (.nilMap ty) = true :=
    sameType_self .Map (some ty.id) _ _ rfl rfl rfl rfl
  rw [h, hs]
  rfl

theorem DeepEqual_nil_empty_slice (ty ty2 : GoType) (b : Nat) (elems : List Value) :
    DeepEqual (some (.nilSlice ty)) (some (.slice ty2 b elems)) = false ∧
    DeepEqual (some (.slice ty2 b elems)) (some (.nilSlice ty)) = false := by
  have h1 : DeepEqual (some (.nilSlice ty)) (some (.slice ty2 b elems))
      = (sameType (.nilSlice ty) (.slice ty2 b elems) &&
          (sameType (.nilSlice ty) (.slice ty2 b elems) && false)) := rfl
  have h2 : DeepEqual (some (.slice ty2 b elems)) (some (.nilSlice ty))
      = (sameType (.slice ty2 b elems) (.nilSlice ty) &&
          (sameType (.slice ty2 b elems) (.nilSlice ty) && false)) := rfl
  rw [h1, h2]
  simp

theorem DeepEqual_nil_empty_map (ty ty2 : GoType) (b : Nat) (entries : List (Value × Value)) :
    DeepEqual (some (.nilMap ty)) (some (.map ty2 b entries)) = false ∧
    DeepEqual (some (.map ty2 b entries)) (some (.nilMap ty)) = false := by
  have h1 : DeepEqual (some (.nilMap ty)) (some (.map ty2 b entries))
      = (sameType (.nilMap ty) (.map ty2 b entries) &&
          (sameType (.nilMap ty) (.map ty2 b entries) && false)) := rfl
  have h2 : DeepEqual (some (.map ty2 b entries)) (some (.nilMap ty))
      = (sameType (.map ty2 b entries) (.nilMap ty) &&
          (sameType (.map ty2 b entries) (.nilMap ty) && false)) := rfl
  rw [h1, h2]
  simp

/-- C11, the claim as it stands fails: the nil slice `[]int(nil)` and the slice `[]int{}` are
two empty slices of one type (both have length 0), and yet Be between them records a
failure. -/
theorem Be_fails_between_nil_and_empty_slice :
    ((Be sampleFloat (some 0) nilInts (session (emptyInts 1))).heap.testing 0).output
      = ["Expected values to have the same properties and values: "
          ++ "expected [] (type []int), but got [] (type []int)"] ∧
    (Value.nilSlice intSlice).Len = .ok 0 ∧
    (Value.slice intSlice 1 []).Len = .ok 0 :=
  ⟨by decide, rfl, rfl⟩

/-- C11, amended: Be records no failure between two empty slices of one type that are both not
nil, between two empty maps of one type that are both not nil, and between two nil slices or
two nil maps of one type; it records exactly one failure between a nil slice and a slice that
is not nil (empty or not), between a nil map and a map that is not nil, and between the nil
interface and any value (0, "", false, an empty slice or map, ...), whichever of the two is
the subject. -/
theorem Be_on_empty_and_nil (ff : FloatFormat) (a tp : Nat) (x e : Iface) (m : String)
    (h : Heap) (hv : h.verifier a = ⟨some tp, x, m⟩) :
    (((∃ ty b1 b2, x = some (.slice ty b1 []) ∧ e = some (.slice ty b2 [])) ∨
      (∃ ty a1 a2, x = some (.map ty a1 []) ∧ e = some (.map ty a2 [])) ∨
      (∃ ty, x = some (.nilSlice ty) ∧ e = some (.nilSlice ty)) ∨
      (∃ ty, x = some (.nilMap ty) ∧ e = some (.nilMap ty))) →
      Be ff (some a) e h = .ret (some a) h) ∧
    (((∃ ty ty2 b elems, x = some (.nilSlice ty) ∧ e = some (.slice ty2 b elems)) ∨
      (∃ ty ty2 b elems, x = some (.slice ty2 b elems) ∧ e = some (.nilSlice ty)) ∨
      (∃ ty ty2 b entries, x = some (.nilMap ty) ∧ e = some (.map ty2 b entries)) ∨
      (∃ ty ty2 b entries, x = some (.map ty2 b entries) ∧ e = some (.nilMap ty)) ∨
      (∃ v, x = none ∧ e = some v) ∨
      (∃ v, x = some v ∧ e = none)) →
      ∃ text, Be ff (some a) e h = .ret (some a) (h.log tp text)) := by
  rw [Be_run ff a tp x e m h hv]
  constructor
  · rintro (⟨ty, b1, b2, rfl, rfl⟩ | ⟨ty, a1, a2, rfl, rfl⟩ | ⟨ty, rfl, rfl⟩ | ⟨ty, rfl, rfl⟩)
    · rw [if_pos (DeepEqual_empty_slices ty b1 b2)]
    · rw [if_pos (DeepEqual_empty_maps ty a1 a2)]
    · rw [if_pos (DeepEqual_nil_slices ty)]
    · rw [if_pos (DeepEqual_nil_maps ty)]
  · rintro (⟨ty, ty2, b, elems, rfl, rfl⟩ | ⟨ty, ty2, b, elems, rfl, rfl⟩ |
      ⟨ty, ty2, b, entries, rfl, rfl⟩ | ⟨ty, ty2, b, entries, rfl, rfl⟩ | ⟨v, rfl, rfl⟩ |
      ⟨v, rfl, rfl⟩)
    · simp [(DeepEqual_nil_empty_slice ty ty2 b elems).1]
    · simp [(DeepEqual_nil_empty_slice ty ty2 b elems).2]
    · simp [(DeepEqual_nil_empty_map ty ty2 b entries).1]
    · simp [(DeepEqual_nil_empty_map ty ty2 b entries).2]
    · simp [DeepEqual]
    · simp [DeepEqual]

/-- C11 amended, on samples: Be between the empty slices `[]int{}` at two addresses records
nothing; Be(0) on the nil subject records one failure. -/
theorem Be_on_empty_and_nil_witness :
    (session (emptyInts 1)).verifier 0 = ⟨some 0, emptyInts 1, ""⟩ ∧
    (session none).verifier 0 = ⟨some 0, none, ""⟩ ∧
    Be sampleFloat (some 0) (emptyInts 2) (session (emptyInts 1))
      = .ret (some 0) (session (emptyInts 1)) ∧
    ∃ text, Be sampleFloat (some 0) (goInt 0) (session none)
      = .ret (some 0) ((session none).log 0 text) :=
  ⟨rfl, rfl,
    (Be_on_empty_and_nil sampleFloat 0 0 (emptyInts 1) (emptyInts 2) "" _ rfl).1
      (Or.inl ⟨_, _, _, rfl, rfl⟩),
    (Be_on_empty_and_nil sampleFloat 0 0 none (goInt 0) "" _ rfl).2
      (Or.inr (Or.inr (Or.inr (Or.inr (Or.inl ⟨_, rfl, rfl⟩)))))⟩

theorem assertBool_of_not_bool (x : Iface) (hx : ∀ b, x ≠ goBool b) :
    assertBool x = (false, false) := by
  rcases x with _ | v
  · rfl
  · cases v <;> try rfl
    rename_i named b
    cases named
    · exact absurd rfl (hx b)
    · rfl

theorem assertString_of_not_string (x : Iface) (hx : ∀ s, x ≠ goString s) :
    assertString x = ("", false) := by
  rcases x with _ | v
  · rfl
  · cases v <;> try rfl
    rename_i named s
    cases named
    · exact absurd rfl (hx s)
    · rfl

theorem utf8ByteSize_eq_zero (s : String) : s.utf8ByteSize = 0 ↔ s = "" := by
  rcases s with ⟨cs⟩
  cases cs with
  | nil => simp [String.utf8ByteSize, String.utf8ByteSize.go]
  | cons c cs =>
    have hpos := Char.utf8Size_pos c
    constructor
    · intro h0
      simp only [String.utf8ByteSize, String.utf8ByteSize.go] at h0
      omega
    · intro h0
      exact absurd h0 (by simp [String.ext_iff])

theorem toFloat64_eq_none_iff (x : Iface) :
    toFloat64 x = none ↔ (∀ i, x ≠ goInt i) ∧ (∀ f, x ≠ goFloat f) := by
  constructor
  · intro h0
    constructor
    · rintro i rfl
      simp [toFloat64, assertFloat64, assertInt, goInt] at h0
    · rintro f rfl
      simp [toFloat64, assertFloat64, goFloat] at h0
  · rintro ⟨hi, hf⟩
    rcases x with _ | v
    · rfl
    · cases v <;> try rfl
      · rename_i k named i
        cases k <;> try rfl
        cases named
        · exact absurd rfl (hi i)
        · rfl
      · rename_i k named f
        cases k <;> try rfl
        cases named
        · exact absurd rfl (hf f)
        · rfl

/-- C12: BeTrue records no failure on the subject `bool(true)` and exactly one failure, of the
expectation-not-met form, on every other subject; BeFalse records no failure on the subject
`bool(false)` and exactly one on every other subject. So a subject of type bool fails exactly
one of the two checks, and a subject that is not of type bool (nil, 1, "true", a value of
a defined type over bool, ...) fails both. -/
theorem BeTrue_BeFalse_on_every_subject (ff : FloatFormat) (a tp : Nat) (x : Iface) (m : String)
    (h : Heap) (hv : h.verifier a = ⟨some tp, x, m⟩) :
    (x = goBool true →
      BeTrue ff (some a) h = .ret (some a) h ∧
      BeFalse ff (some a) h = .ret (some a) (h.log tp (messageOr m "Expected value to be false"
        ++ ": expected false, but got " ++ fmtV ff x ++ " (type " ++ fmtT x ++ ")"))) ∧
    (x = goBool false →
      BeTrue ff (some a) h = .ret (some a) (h.log tp (messageOr m "Expected value to be true"
        ++ ": expected true, but got " ++ fmtV ff x ++ " (type " ++ fmtT x ++ ")")) ∧
      BeFalse ff (some a) h = .ret (some a) h) ∧
    ((∀ b, x ≠ goBool b) →
      BeTrue ff (some a) h = .ret (some a) (h.log tp (messageOr m "Expected value to be true"
        ++ ": expected true, but got " ++ fmtV ff x ++ " (type " ++ fmtT x ++ ")")) ∧
      BeFalse ff (some a) h = .ret (some a) (h.log tp (messageOr m "Expected value to be false"
        ++ ": expected false, but got " ++ fmtV ff x ++ " (type " ++ fmtT x ++ ")"))) := by
  rw [BeTrue_run ff a tp x m h hv, BeFalse_run ff a tp x m h hv]
  refine ⟨?_, ?_, ?_⟩
  · rintro rfl
    simp [assertBool, goBool]
  · rintro rfl
    simp [assertBool, goBool]
  · intro hx
    rw [assertBool_of_not_bool x hx]
    simp

/-- C12, on samples: the subject `int(1)` fails BeTrue and BeFalse, each with one failure; the
subject `bool(true)` passes BeTrue. -/
theorem BeTrue_BeFalse_on_every_subject_witness :
    (session (goInt 1)).verifier 0 = ⟨some 0, goInt 1, ""⟩ ∧
    (session (goBool true)).verifier 0 = ⟨some 0, goBool true, ""⟩ ∧
    (∀ b, goInt 1 ≠ goBool b) ∧
    BeTrue sampleFloat (some 0) (session (goBool true)) = .ret (some 0) (session (goBool true)) ∧
    BeTrue sampleFloat (some 0) (session (goInt 1)) = .ret (some 0) ((session (goInt 1)).log 0
      "Expected value to be true: expected true, but got 1 (type int)") ∧
    BeFalse sampleFloat (some 0) (session (goInt 1)) = .ret (some 0) ((session (goInt 1)).log 0
      "Expected value to be false: expected false, but got 1 (type int)") :=
  ⟨rfl, rfl, (fun b hb => by cases hb),
    ((BeTrue_BeFalse_on_every_subject sampleFloat 0 0 (goBool true) "" (session (goBool true)) rfl).1 rfl).1,
    (BeTrue_BeFalse_on_every_subject sampleFloat 0 0 (goInt 1) "" (session (goInt 1)) rfl).2.2
      (fun b hb => by cases hb)⟩

/-- C13: on a subject of type string `s`, NotEmpty records a failure exactly when `s` is the
empty string, that is when its length in bytes is zero, and Empty records a failure exactly
when it is not; so exactly one of the two checks records a failure. -/
theorem NotEmpty_Empty_on_strings (ff : FloatFormat) (a tp : Nat) (s m : String) (h : Heap)
    (hv : h.verifier a = ⟨some tp, goString s, m⟩) :
    (s.utf8ByteSize = 0 ↔ s = "") ∧
    (s = "" →
      NotEmpty ff (some a) h = .ret (some a) (h.log tp
        (messageOr m "Expected string to be not empty" ++ ": string is empty")) ∧
      Empty ff (some a) h = .ret (some a) h) ∧
    (s ≠ "" →
      NotEmpty ff (some a) h = .ret (some a) h ∧
      Empty ff (some a) h = .ret (some a) (h.log tp
        (messageOr m "Expected string to be empty" ++ ": string is not empty"))) := by
  rw [NotEmpty_run ff a tp (goString s) m h hv, Empty_run ff a tp (goString s) m h hv]
  refine ⟨utf8ByteSize_eq_zero s, ?_, ?_⟩
  · rintro rfl
    simp [assertString, goString]
  · intro hs
    simp [assertString, goString, hs]

/-- C13, on samples: NotEmpty fails on the empty string and passes on "x"; Empty fails on
"x". -/
theorem NotEmpty_Empty_on_strings_witness :
    (session (goString "")).verifier 0 = ⟨some 0, goString "", ""⟩ ∧
    (session (goString "x")).verifier 0 = ⟨some 0, goString "x", ""⟩ ∧
    NotEmpty sampleFloat (some 0) (session (goString "")) = .ret (some 0)
      ((session (goString "")).log 0 "Expected string to be not empty: string is empty") ∧
    NotEmpty sampleFloat (some 0) (session (goString "x"))
      = .ret (some 0) (session (goString "x")) ∧
    Empty sampleFloat (some 0) (session (goString "x")) = .ret (some 0)
      ((session (goString "x")).log 0 "Expected string to be empty: string is not empty") :=
  ⟨rfl, rfl,
    ((NotEmpty_Empty_on_strings sampleFloat 0 0 "" "" (session (goString "")) rfl).2.1 rfl).1,
    (NotEmpty_Empty_on_strings sampleFloat 0 0 "x" "" (session (goString "x")) rfl).2.2 (by decide)⟩

/-- C14: on a subject that is not of type string (nil, a number, a byte slice, a pointer to a
string, a value of a defined type over string, ...), NotEmpty and Empty each record exactly one
failure, the one that says the subject is not a string, whatever the custom message; neither
of the failures about emptiness is recorded. -/
theorem NotEmpty_Empty_on_other_subjects (ff : FloatFormat) (a tp : Nat) (x : Iface) (m : String)
    (h : Heap) (hv : h.verifier a = ⟨some tp, x, m⟩) (hx : ∀ s, x ≠ goString s) :
    NotEmpty ff (some a) h = .ret (some a) (h.log tp ("Expected a string, but got value "
      ++ fmtV ff x ++ " (type " ++ fmtT x ++ ")")) ∧
    Empty ff (some a) h = .ret (some a) (h.log tp ("Expected a string, but got value "
      ++ fmtV ff x ++ " (type " ++ fmtT x ++ ")")) := by
  rw [NotEmpty_run ff a tp x m h hv, Empty_run ff a tp x m h hv,
    assertString_of_not_string x hx]
  simp

/-- C14, on a sample: the subject `int(5)`. -/
theorem NotEmpty_Empty_on_other_subjects_witness :
    (session (goInt 5)).verifier 0 = ⟨some 0, goInt 5, ""⟩ ∧
    (∀ s, goInt 5 ≠ goString s) ∧
    NotEmpty sampleFloat (some 0) (session (goInt 5)) = .ret (some 0)
      ((session (goInt 5)).log 0 "Expected a string, but got value 5 (type int)") ∧
    Empty sampleFloat (some 0) (session (goInt 5)) = .ret (some 0)
      ((session (goInt 5)).log 0 "Expected a string, but got value 5 (type int)") :=
  ⟨rfl, (fun s hs => by cases hs),
    NotEmpty_Empty_on_other_subjects sampleFloat 0 0 (goInt 5) "" (session (goInt 5)) rfl
      (fun s hs => by cases hs)⟩

/-- C15: on the nil subject, and on a subject of any kind other than slice, map, chan, array
and string, Len(n) records for every `n` exactly one failure, the one that says the subject
cannot be measured, whatever the custom message; no failure about the expected length is
recorded. -/
theorem Len_on_unmeasurable (a tp : Nat) (x : Iface) (m : String) (n : Int) (h : Heap)
    (hv : h.verifier a = ⟨some tp, x, m⟩) :
    (x = none →
      Len (some a) n h = .ret (some a) (h.log tp "Cannot check length of nil value")) ∧
    (∀ val, x = some val → measurable val.kind = false →
      Len (some a) n h = .ret (some a) (h.log tp
        ("Expected a slice, map, channel, array, or string, but got " ++ fmtT x))) := by
  constructor
  · rintro rfl
    exact Len_run_nil a tp m n h hv
  · rintro val rfl hk
    exact Len_run_other a tp val m n h hv hk

/-- C15, on samples: Len(0) on the nil subject and on the subject `int(0)`. -/
theorem Len_on_unmeasurable_witness :
    (session none).verifier 0 = ⟨some 0, none, ""⟩ ∧
    (session (goInt 0)).verifier 0 = ⟨some 0, goInt 0, ""⟩ ∧
    measurable (Value.int .int none 0).kind = false ∧
    Len (some 0) 0 (session none) = .ret (some 0)
      ((session none).log 0 "Cannot check length of nil value") ∧
    Len (some 0) 0 (session (goInt 0)) = .ret (some 0) ((session (goInt 0)).log 0
      "Expected a slice, map, channel, array, or string, but got int") :=
  ⟨rfl, rfl, rfl,
    (Len_on_unmeasurable 0 0 none "" 0 (session none) rfl).1 rfl,
    (Len_on_unmeasurable 0 0 (goInt 0) "" 0 (session (goInt 0)) rfl).2 _ rfl rfl⟩

/-- C16: GT and LT accept an operand only when it is of type int or of type float64. When the
subject is of any other type, each records exactly one failure, which says that the value is
not numeric; when the subject is accepted and the threshold is of any other type, each records
exactly one failure, which says that the threshold is not numeric. Neither makes a
comparison then, whatever the custom message. -/
theorem GT_LT_on_other_types (ff : FloatFormat) (a tp : Nat) (x thr : Iface) (m : String)
    (h : Heap) (hv : h.verifier a = ⟨some tp, x, m⟩) :
    (((∀ i, x ≠ goInt i) ∧ (∀ f, x ≠ goFloat f)) →
      GT ff (some a) thr h = .ret (some a) (h.log tp ("Expected a numeric value, but got "
        ++ fmtV ff x ++ " (type " ++ fmtT x ++ ")")) ∧
      LT ff (some a) thr h = .ret (some a) (h.log tp ("Expected a numeric value, but got "
        ++ fmtV ff x ++ " (type " ++ fmtT x ++ ")"))) ∧
    (((∃ i, x = goInt i) ∨ (∃ f, x = goFloat f)) →
      ((∀ i, thr ≠ goInt i) ∧ (∀ f, thr ≠ goFloat f)) →
      GT ff (some a) thr h = .ret (some a) (h.log tp ("Expected a numeric threshold, but got "
        ++ fmtV ff thr ++ " (type " ++ fmtT thr ++ ")")) ∧
      LT ff (some a) thr h = .ret (some a) (h.log tp ("Expected a numeric threshold, but got "
        ++ fmtV ff thr ++ " (type " ++ fmtT thr ++ ")"))) := by
  rw [GT_run ff a tp x thr m h hv, LT_run ff a tp x thr m h hv]
  constructor
  · intro hx
    rw [(toFloat64_eq_none_iff x).2 hx]
    exact ⟨rfl, rfl⟩
  · intro hx hthr
    rw [(toFloat64_eq_none_iff thr).2 hthr]
    rcases hx with ⟨i, rfl⟩ | ⟨f, rfl⟩
    · exact ⟨rfl, rfl⟩
    · exact ⟨rfl, rfl⟩

/-- C16, on samples: GT(5) on the subject "a" and on the subject `int32(7)`, and LT("a") on
the subject 5. -/
theorem GT_LT_on_other_types_witness :
    (session (goString "a")).verifier 0 = ⟨some 0, goString "a", ""⟩ ∧
    ((∀ i, goString "a" ≠ goInt i) ∧ (∀ f, goString "a" ≠ goFloat f)) ∧
    GT sampleFloat (some 0) (goInt 5) (session (goString "a")) = .ret (some 0)
      ((session (goString "a")).log 0 "Expected a numeric value, but got a (type string)") ∧
    GT sampleFloat (some 0) (goInt 5) (session (some (.int .int32 none 7))) = .ret (some 0)
      ((session (some (.int .int32 none 7))).log 0
        "Expected a numeric value, but got 7 (type int32)") ∧
    LT sampleFloat (some 0) (goString "a") (session (goInt 5)) = .ret (some 0)
      ((session (goInt 5)).log 0 "Expected a numeric threshold, but got a (type string)") :=
  ⟨rfl, ⟨(fun i hi => by cases hi), (fun f hf => by cases hf)⟩,
    ((GT_LT_on_other_types sampleFloat 0 0 (goString "a") (goInt 5) "" (session (goString "a")) rfl).1
      ⟨(fun i hi => by cases hi), (fun f hf => by cases hf)⟩).1,
    ((GT_LT_on_other_types sampleFloat 0 0 (some (.int .int32 none 7)) (goInt 5) ""
      (session (some (.int .int32 none 7))) rfl).1
      ⟨(fun i hi => by cases hi), (fun f hf => by cases hf)⟩).1,
    ((GT_LT_on_other_types sampleFloat 0 0 (goInt 5) (goString "a") "" (session (goInt 5)) rfl).2
      (Or.inl ⟨5, rfl⟩) ⟨(fun i hi => by cases hi), (fun f hf => by cases hf)⟩).2⟩

/-- The form of what a check records on a session of custom message `m`: the fixed text of a
precondition failure, or nothing, or the message, a colon and a detail. -/
theorem failure_form_aux (ff : FloatFormat) (c : Check) (a tp : Nat) (x : Iface) (m : String)
    (h : Heap) (hv : h.verifier a = ⟨some tp, x, m⟩) :
    match c.precondition ff x with
    | some text => c.run ff (some a) h = .ret (some a) (h.log tp text)
    | none =>
      c.run ff (some a) h = .ret (some a) h ∨
      ∃ detail, c.run ff (some a) h
        = .ret (some a) (h.log tp (messageOr m c.defaultMessage ++ ": " ++ detail)) := by
  cases c with
  | Be e =>
    simp only [Check.precondition, Check.run, Check.defaultMessage]
    rw [Be_run ff a tp x e m h hv]
    by_cases hd : DeepEqual x e = true
    · exact Or.inl (by rw [if_pos hd])
    · refine Or.inr ⟨"expected " ++ (fmtV ff e ++ (" (type " ++ (fmtT e ++ ("), but got "
        ++ (fmtV ff x ++ (" (type " ++ (fmtT x ++ ")"))))))), ?_⟩
      rw [if_neg hd]
      simp only [String.append_assoc]
      rfl
  | NotEqual e =>
    simp only [Check.precondition, Check.run, Check.defaultMessage]
    rw [NotEqual_run ff a tp x e m h hv]
    by_cases hd : DeepEqual x e = true
    · refine Or.inr ⟨"expected not " ++ (fmtV ff e ++ (" (type " ++ (fmtT e ++ ("), but got "
        ++ (fmtV ff x ++ (" (type " ++ (fmtT x ++ ")"))))))), ?_⟩
      rw [if_pos hd]
      simp only [String.append_assoc]
      rfl
    · exact Or.inl (by rw [if_neg hd])
  | NotEmpty =>
    simp only [Check.precondition, Check.run, Check.defaultMessage]
    rw [NotEmpty_run ff a tp x m h hv]
    cases hok : (assertString x).2
    · simp
    · simp only [if_true]
      by_cases hs : ((assertString x).1 == "") = true
      · refine Or.inr ⟨"string is empty", ?_⟩
        rw [if_pos hs]
        simp only [String.append_assoc]
        rfl
      · exact Or.inl (by rw [if_neg hs])
  | Empty =>
    simp only [Check.precondition, Check.run, Check.defaultMessage]
    rw [Empty_run ff a tp x m h hv]
    cases hok : (assertString x).2
    · simp
    · simp only [if_true]
      by_cases hs : ((assertString x).1 != "") = true
      · refine Or.inr ⟨"string is not empty", ?_⟩
        rw [if_pos hs]
        simp only [String.append_assoc]
        rfl
      · exact Or.inl (by rw [if_neg hs])
  | Nil =>
    simp only [Check.precondition, Check.run, Check.defaultMessage]
    obtain ⟨b, hb⟩ := isNil_ok x
    rw [Nil_run ff a tp x m h b hv hb]
    cases b
    · refine Or.inr ⟨"expected nil, but got " ++ (fmtV ff x ++ (" (type " ++ (fmtT x
        ++ ")"))), ?_⟩
      simp only [String.append_assoc, Bool.false_eq_true, if_false]
      rfl
    · exact Or.inl (by rw [if_pos rfl])
  | NotNil =>
    simp only [Check.precondition, Check.run, Check.defaultMessage]
    obtain ⟨b, hb⟩ := isNil_ok x
    rw [NotNil_run a tp x m h b hv hb]
    cases b
    · exact Or.inl (by simp)
    · refine Or.inr ⟨"expected not nil, but got nil", ?_⟩
      rw [if_pos rfl]
      simp only [String.append_assoc]
      rfl
  | BeTrue =>
    simp only [Check.precondition, Check.run, Check.defaultMessage]
    rw [BeTrue_run ff a tp x m h hv]
    by_cases hd : ((assertBool x).2 && (assertBool x).1) = true
    · exact Or.inl (by rw [if_pos hd])
    · refine Or.inr ⟨"expected true, but got " ++ (fmtV ff x ++ (" (type " ++ (fmtT x
        ++ ")"))), ?_⟩
      rw [if_neg hd]
      simp only [String.append_assoc]
      rfl
  | BeFalse =>
    simp only [Check.precondition, Check.run, Check.defaultMessage]
    rw [BeFalse_run ff a tp x m h hv]
    by_cases hd : ((assertBool x).2 && !(assertBool x).1) = true
    · exact Or.inl (by rw [if_pos hd])
    · refine Or.inr ⟨"expected false, but got " ++ (fmtV ff x ++ (" (type " ++ (fmtT x
        ++ ")"))), ?_⟩
      rw [if_neg hd]
      simp only [String.append_assoc]
      rfl
  | Len n =>
    simp only [Check.precondition, Check.run, Check.defaultMessage]
    rcases x with _ | val
    · exact Len_run_nil a tp m n h hv
    · cases hk : measurable val.kind
      · simp only [hk, Bool.false_eq_true, if_false]
        exact Len_run_other a tp val m n h hv hk
      · simp only [hk, if_true]
        obtain ⟨len, hl⟩ := Len_ok val hk
        rw [Len_run a tp val m n len h hv hk hl]
        by_cases hn : len = n
        · exact Or.inl (by rw [if_pos hn])
        · refine Or.inr ⟨"expected length " ++ (fmtD n ++ (", but got " ++ fmtD len)), ?_⟩
          rw [if_neg hn]
          simp only [String.append_assoc]
          rfl
  | GT thr =>
    simp only [Check.precondition, Check.run, Check.defaultMessage]
    rw [GT_run ff a tp x thr m h hv]
    cases hx : toFloat64 x with
    | none => rfl
    | some val =>
      cases ht : toFloat64 thr with
      | none => rfl
      | some t =>
        simp only []
        by_cases hd : F64.le val t = true
        · refine Or.inr ⟨"expected > " ++ (ff .float64 t ++ (", but got " ++ ff .float64 val)),
            ?_⟩
          rw [if_pos hd]
          simp only [String.append_assoc]
          rfl
        · exact Or.inl (by rw [if_neg hd])
  | LT thr =>
    simp only [Check.precondition, Check.run, Check.defaultMessage]
    rw [LT_run ff a tp x thr m h hv]
    cases hx : toFloat64 x with
    | none => rfl
    | some val =>
      cases ht : toFloat64 thr with
      | none => rfl
      | some t =>
        simp only []
        by_cases hd : F64.ge val t = true
        · refine Or.inr ⟨"expected < " ++ (ff .float64 t ++ (", but got " ++ ff .float64 val)),
            ?_⟩
          rw [if_pos hd]
          simp only [String.append_assoc]
          rfl
        · exact Or.inl (by rw [if_neg hd])

/-- C17, the claim as it stands fails: the failure that NotNil records for the nil pointer
`(*int)(nil)` and for the nil slice `[]int(nil)` is the same text, which names no runtime type;
and after `Message("custom")` the failure of NotPanic does not carry the custom message. -/
theorem failure_form_exceptions :
    ((NotNil (some 0) (session nilIntPtr)).heap.testing 0).output
      = ["Expected value to not be nil: expected not nil, but got nil"] ∧
    ((NotNil (some 0) (session nilInts)).heap.testing 0).output
      = ["Expected value to not be nil: expected not nil, but got nil"] ∧
    fmtT nilIntPtr = "*int" ∧ fmtT nilInts = "[]int" ∧
    ((NotPanic sampleFloat (some 0) boom []
      (Message (some 0) "custom" (session (goInt 4))).heap).heap.testing 0).output
      = ["Expected function to not panic: expected no panic, but function panicked with boom"] := by
  decide

/-- C17, amended: what each of the eleven checks records for an unmet condition has the form
`<message>: <detail>`, where the message is the custom message when it is not empty and
the default of the check when it is. The detail of Be and of NotEqual names the expected and the
actual value, each with its runtime type; the detail of Nil, BeTrue and BeFalse names the
actual value with its runtime type after the expected literal; the detail of NotNil is a fixed
text. Panic and NotPanic put their optional message, or their default, before the colon. -/
theorem failure_form (ff : FloatFormat) (c : Check) (a tp : Nat) (x : Iface) (m : String)
    (h : Heap) (hv : h.verifier a = ⟨some tp, x, m⟩) :
    (match c.precondition ff x with
      | some text => c.run ff (some a) h = .ret (some a) (h.log tp text)
      | none =>
        c.run ff (some a) h = .ret (some a) h ∨
        ∃ detail, c.run ff (some a) h
          = .ret (some a) (h.log tp (messageOr m c.defaultMessage ++ ": " ++ detail))) ∧
    (m ≠ "" → messageOr m c.defaultMessage = m) ∧
    (m = "" → messageOr m c.defaultMessage = c.defaultMessage) ∧
    (∀ e, DeepEqual x e = false →
      Be ff (some a) e h = .ret (some a) (h.log tp
        (messageOr m "Expected values to have the same properties and values" ++ ": "
          ++ ("expected " ++ fmtV ff e ++ " (type " ++ fmtT e ++ "), but got " ++ fmtV ff x
            ++ " (type " ++ fmtT x ++ ")")))) ∧
    (∀ e, DeepEqual x e = true →
      NotEqual ff (some a) e h = .ret (some a) (h.log tp
        (messageOr m "Expected values to be different" ++ ": "
          ++ ("expected not " ++ fmtV ff e ++ " (type " ++ fmtT e ++ "), but got " ++ fmtV ff x
            ++ " (type " ++ fmtT x ++ ")")))) ∧
    (isNil x = .ok false →
      Nil ff (some a) h = .ret (some a) (h.log tp (messageOr m "Expected value to be nil" ++ ": "
        ++ ("expected nil, but got " ++ fmtV ff x ++ " (type " ++ fmtT x ++ ")")))) ∧
    (isNil x = .ok true →
      NotNil (some a) h = .ret (some a) (h.log tp (messageOr m "Expected value to not be nil"
        ++ ": " ++ "expected not nil, but got nil"))) ∧
    (x ≠ goBool true →
      BeTrue ff (some a) h = .ret (some a) (h.log tp (messageOr m "Expected value to be true"
        ++ ": " ++ ("expected true, but got " ++ fmtV ff x ++ " (type " ++ fmtT x ++ ")")))) ∧
    (x ≠ goBool false →
      BeFalse ff (some a) h = .ret (some a) (h.log tp (messageOr m "Expected value to be false"
        ++ ": " ++ ("expected false, but got " ++ fmtV ff x ++ " (type " ++ fmtT x ++ ")")))) ∧
    (∀ fn msg, call fn h = .ret () h →
      Panic (some a) fn msg h = .ret (some a) (h.log tp
        (firstOr msg "Expected function to panic" ++ ": "
          ++ "expected panic, but function did not panic"))) ∧
    (∀ fn msg p, call fn h = .panic p h →
      NotPanic ff (some a) fn msg h = .ret none (h.log tp
        (firstOr msg "Expected function to not panic" ++ ": "
          ++ ("expected no panic, but function panicked with " ++ fmtRecovered ff p)))) := by
  refine ⟨failure_form_aux ff c a tp x m h hv, fun hm => messageOr_custom m _ hm, ?_, ?_, ?_,
    ?_, ?_, ?_, ?_, ?_, ?_⟩
  · rintro rfl
    exact messageOr_empty _
  · intro e hd
    rw [Be_run ff a tp x e m h hv, hd]
    simp only [String.append_assoc, Bool.false_eq_true, if_false]
    rfl
  · intro e hd
    rw [NotEqual_run ff a tp x e m h hv, hd]
    simp only [String.append_assoc, if_true]
    rfl
  · intro hb
    rw [Nil_run ff a tp x m h false hv hb]
    simp only [String.append_assoc, Bool.false_eq_true, if_false]
    rfl
  · intro hb
    rw [NotNil_run a tp x m h true hv hb]
    simp only [String.append_assoc, if_true]
    rfl
  · intro hx
    rw [BeTrue_run ff a tp x m h hv]
    have hd : ((assertBool x).2 && (assertBool x).1) = false := by
      rcases x with _ | v
      · rfl
      · cases v <;> try rfl
        rename_i named b
        cases named
        · cases b
          · rfl
          · exact absurd rfl hx
        · rfl
    rw [hd]
    simp only [String.append_assoc, Bool.false_eq_true, if_false]
    rfl
  · intro hx
    rw [BeFalse_run ff a tp x m h hv]
    have hd : ((assertBool x).2 && !(assertBool x).1) = false := by
      rcases x with _ | v
      · rfl
      · cases v <;> try rfl
        rename_i named b
        cases named
        · cases b
          · exact absurd rfl hx
          · rfl
        · rfl
    rw [hd]
    simp only [String.append_assoc, Bool.false_eq_true, if_false]
    rfl
  · intro fn msg hf
    rw [Panic_run_returned a tp x m fn msg h h hf hv]
    simp only [String.append_assoc]
    rfl
  · intro fn msg p hf
    rw [NotPanic_run_panicked ff a tp x m fn msg h h p hf hv]
    simp only [String.append_assoc]
    rfl

/-- C17 amended, on the sample of the claim: Be(3) on the subject 4 without a custom
message. -/
theorem failure_form_witness :
    (session (goInt 4)).verifier 0 = ⟨some 0, goInt 4, ""⟩ ∧
    DeepEqual (goInt 4) (goInt 3) = false ∧
    Be sampleFloat (some 0) (goInt 3) (session (goInt 4)) = .ret (some 0)
      ((session (goInt 4)).log 0 ("Expected values to have the same properties and values: "
        ++ "expected 3 (type int), but got 4 (type int)")) :=
  ⟨rfl, by decide,
    (failure_form sampleFloat (.Be (goInt 3)) 0 0 (goInt 4) "" (session (goInt 4)) rfl).2.2.2.1
      (goInt 3) (by decide)⟩

theorem record_verifier (h : Heap) (tp : Nat) (o : Option String) :
    (h.record tp o).verifier = h.verifier := by
  cases o <;> rfl

theorem log_ne_self (h : Heap) (tp : Nat) (text : String) : h.log tp text ≠ h := by
  intro heq
  have hlen := congrArg (fun k : Heap => (k.testing tp).output.length) heq
  simp [Heap.log] at hlen

theorem Panic_verifier (a : Nat) (fn : Option (Go Unit)) (msg : List String) (h : Heap) :
    (Panic (some a) fn msg h).heap.verifier = (call fn h).heap.verifier := by
  simp only [Panic, deferRecover, bind_apply, pure_apply]
  cases hf : call fn h with
  | ret u h1 =>
    simp only [load_some]
    cases ht : (h1.verifier a).t with
    | none => rfl
    | some tp => rfl
  | panic p h1 => rfl

theorem NotPanic_verifier (ff : FloatFormat) (a : Nat) (fn : Option (Go Unit))
    (msg : List String) (h : Heap) :
    (NotPanic ff (some a) fn msg h).heap.verifier = (call fn h).heap.verifier := by
  simp only [NotPanic, deferRecover, bind_apply, pure_apply]
  cases hf : call fn h with
  | ret u h1 => rfl
  | panic p h1 =>
    simp only [load_some]
    cases ht : (h1.verifier a).t with
    | none => rfl
    | some tp => rfl

/-- C18: on a session whose sink is not nil, each of the eleven checks returns with every
Verifier as it was (subject, custom message and sink), whether it records a failure or not;
Panic and NotPanic leave every Verifier as the call of `fn` left it; `Message(text)` sets the
custom message of its session to `text` and changes neither the subject, nor the sink, nor any
other session, nor what the tests have recorded. Consequently what a check records is the same
on every heap in which its session has the same three fields, whatever ran before. -/
theorem state_changes_only_through_Message (ff : FloatFormat) (c : Check) (a tp : Nat)
    (x : Iface) (m text : String) (h : Heap) (hv : h.verifier a = ⟨some tp, x, m⟩) :
    (∃ o, c.run ff (some a) h = .ret (some a) (h.record tp o) ∧
      (h.record tp o).verifier = h.verifier ∧
      ∀ h1 : Heap, h1.verifier a = h.verifier a →
        c.run ff (some a) h1 = .ret (some a) (h1.record tp o)) ∧
    (∀ fn msg, (Panic (some a) fn msg h).heap.verifier = (call fn h).heap.verifier ∧
      (NotPanic ff (some a) fn msg h).heap.verifier = (call fn h).heap.verifier) ∧
    (∃ hc, Message (some a) text h = .ret (some a) hc ∧
      hc.verifier a = ⟨some tp, x, text⟩ ∧
      (∀ b, b ≠ a → hc.verifier b = h.verifier b) ∧
      hc.testing = h.testing) := by
  refine ⟨?_, fun fn msg => ⟨Panic_verifier a fn msg h, NotPanic_verifier ff a fn msg h⟩, ?_⟩
  · obtain ⟨o, ho⟩ := run_verdict ff c a tp x m
    exact ⟨o, ho h hv, record_verifier h tp o, fun h1 h1v => ho h1 (h1v.trans hv)⟩
  · refine ⟨_, rfl, ?_, ?_, rfl⟩
    · simp [hv]
    · intro b hb
      simp [Function.update, hb]

/-- C18, on a sample: on the subject 4, the failing check Be(3) leaves the session as it was,
and NotEmpty records after it what it records alone. -/
theorem state_changes_only_through_Message_witness :
    (session (goInt 4)).verifier 0 = ⟨some 0, goInt 4, ""⟩ ∧
    (Be sampleFloat (some 0) (goInt 3) (session (goInt 4))).heap.verifier 0
      = ⟨some 0, goInt 4, ""⟩ ∧
    ∃ o, NotEmpty sampleFloat (some 0) (session (goInt 4))
        = .ret (some 0) ((session (goInt 4)).record 0 o) ∧
      NotEmpty sampleFloat (some 0) (Be sampleFloat (some 0) (goInt 3) (session (goInt 4))).heap
        = .ret (some 0)
          ((Be sampleFloat (some 0) (goInt 3) (session (goInt 4))).heap.record 0 o) := by
  obtain ⟨⟨o, hrun, -, hsame⟩, -, -⟩ :=
    state_changes_only_through_Message sampleFloat .NotEmpty 0 0 (goInt 4) "" ""
      (session (goInt 4)) rfl
  exact ⟨rfl, rfl, o, hrun, hsame _ rfl⟩

/-- C19: after `Message("")`, whatever custom message the session had before, the session has
the fields of one on which Message never ran (Should leaves the message empty); each of the
eleven checks then records on it what it records on such a session, and when the failure is
not a precondition failure its text starts with the default message of the check. -/
theorem empty_message_resets (ff : FloatFormat) (c : Check) (a tp : Nat) (x : Iface)
    (m0 : String) (h : Heap) (hv : h.verifier a = ⟨some tp, x, m0⟩) :
    (∀ (t : Option Nat) (k : Heap), (Should t x k).heap.verifier k.next = ⟨t, x, ""⟩) ∧
    ∃ hc, Message (some a) "" h = .ret (some a) hc ∧
      hc.verifier a = ⟨some tp, x, ""⟩ ∧
      (∃ o, c.run ff (some a) hc = .ret (some a) (hc.record tp o) ∧
        ∀ h0 : Heap, h0.verifier a = ⟨some tp, x, ""⟩ →
          c.run ff (some a) h0 = .ret (some a) (h0.record tp o)) ∧
      (match c.precondition ff x with
        | some text => c.run ff (some a) hc = .ret (some a) (hc.log tp text)
        | none =>
          c.run ff (some a) hc = .ret (some a) hc ∨
          ∃ detail, c.run ff (some a) hc
            = .ret (some a) (hc.log tp (c.defaultMessage ++ ": " ++ detail))) := by
  refine ⟨fun t k => by simp [Should, Result.heap], ?_⟩
  obtain ⟨hc, hrun, hvc, -⟩ := Message_run a (some tp) x m0 "" h hv
  obtain ⟨o, ho⟩ := run_verdict ff c a tp x ""
  refine ⟨hc, hrun, hvc, ⟨o, ho hc hvc, ho⟩, ?_⟩
  have hform := failure_form_aux ff c a tp x "" hc hvc
  rw [messageOr_empty] at hform
  exact hform

/-- C19, on a sample: on the subject 4 with the custom message "custom", after `Message("")`
the check Be(3) records the failure with its default message. -/
theorem empty_message_resets_witness :
    (Message (some 0) "custom" (session (goInt 4))).heap.verifier 0
      = ⟨some 0, goInt 4, "custom"⟩ ∧
    ∃ hc, Message (some 0) "" (Message (some 0) "custom" (session (goInt 4))).heap
        = .ret (some 0) hc ∧
      Be sampleFloat (some 0) (goInt 3) hc = .ret (some 0) (hc.log 0
        ("Expected values to have the same properties and values: "
          ++ "expected 3 (type int), but got 4 (type int)")) := by
  obtain ⟨-, hc, hrun, hvc, -, -⟩ :=
    empty_message_resets sampleFloat (.Be (goInt 3)) 0 0 (goInt 4) "custom"
      (Message (some 0) "custom" (session (goInt 4))).heap rfl
  refine ⟨rfl, hc, hrun, ?_⟩
  rw [Be_run sampleFloat 0 0 (goInt 4) (goInt 3) "" hc hvc]
  rfl

/-- C20: on every subject, if Be(nil) records no failure then Nil records none; the converse
fails: on a nil pointer, a nil slice, a nil map, a nil func or a nil chan held in the subject,
Nil records no failure and Be(nil) records exactly one. -/
theorem Nil_weaker_than_Be_nil (ff : FloatFormat) (a tp : Nat) (x : Iface) (m : String)
    (h : Heap) (hv : h.verifier a = ⟨some tp, x, m⟩) :
    (Be ff (some a) none h = .ret (some a) h → Nil ff (some a) h = .ret (some a) h) ∧
    ((∃ ty, x = some (.nilPtr ty) ∨ x = some (.nilSlice ty) ∨ x = some (.nilMap ty) ∨
        x = some (.nilFunc ty) ∨ x = some (.nilChan ty)) →
      Nil ff (some a) h = .ret (some a) h ∧
      ∃ text, Be ff (some a) none h = .ret (some a) (h.log tp text)) := by
  constructor
  · intro hbe
    rw [Be_run ff a tp x none m h hv] at hbe
    by_cases hd : DeepEqual x none = true
    · have hx : x = none := (DeepEqual_nil_right x).1 hd
      subst hx
      rw [Nil_run ff a tp none m h true hv rfl]
      rfl
    · rw [if_neg hd] at hbe
      injection hbe with _ hlog
      exact absurd hlog (log_ne_self h tp _)
  · rintro ⟨ty, rfl | rfl | rfl | rfl | rfl⟩ <;>
      exact ⟨by rw [Nil_run ff a tp _ m h true hv rfl]; rfl,
        ⟨_, by rw [Be_run ff a tp _ none m h hv]; rfl⟩⟩

/-- C20, on a sample: on the nil pointer `(*int)(nil)`, Nil records nothing and Be(nil) records
one failure. -/
theorem Nil_weaker_than_Be_nil_witness :
    (session nilIntPtr).verifier 0 = ⟨some 0, nilIntPtr, ""⟩ ∧
    Nil sampleFloat (some 0) (session nilIntPtr) = .ret (some 0) (session nilIntPtr) ∧
    ∃ text, Be sampleFloat (some 0) none (session nilIntPtr)
      = .ret (some 0) ((session nilIntPtr).log 0 text) :=
  ⟨rfl, (Nil_weaker_than_Be_nil sampleFloat 0 0 nilIntPtr "" (session nilIntPtr) rfl).2
    ⟨intPtr, Or.inl rfl⟩⟩

theorem sameType_iff (v1 v2 : Value) :
    sameType v1 v2 = true ↔ v1.kind = v2.kind ∧ v1.typeId = v2.typeId := by
  simp [sameType]

theorem and_and_self (s m : Bool) : (s && m) = (s && (s && m)) := by
  cases s <;> rfl

theorem deepValueEqual_unfold (v1 v2 : Value) :
    deepValueEqual v1 v2 = (sameType v1 v2 && deepValueEqual v1 v2) := by
  cases v1 <;> cases v2 <;> exact and_and_self _ _

theorem DeepEqual_some (v1 v2 : Value) :
    DeepEqual (some v1) (some v2) = deepValueEqual v1 v2 := by
  rw [deepValueEqual_unfold v1 v2]
  rfl

theorem deepList_iff (e1 e2 : List Value) :
    deepList e1 e2 = true ↔ List.Forall₂ (fun u w => deepValueEqual u w = true) e1 e2 := by
  induction e1 generalizing e2 with
  | nil =>
    cases e2 with
    | nil => exact ⟨fun _ => List.Forall₂.nil, fun _ => rfl⟩
    | cons y ys =>
      constructor
      · intro h0
        have h1 : deepList [] (y :: ys) = false := rfl
        rw [h1] at h0
        cases h0
      · intro h0
        cases h0
  | cons x xs ih =>
    cases e2 with
    | nil =>
      constructor
      · intro h0
        have h1 : deepList (x :: xs) [] = false := rfl
        rw [h1] at h0
        cases h0
      · intro h0
        cases h0
    | cons y ys =>
      have h1 : deepList (x :: xs) (y :: ys) = (deepValueEqual x y && deepList xs ys) := rfl
      rw [h1, Bool.and_eq_true, ih ys, List.forall₂_cons]

theorem deepEntries_iff (m1 m2 : List (Value × Value)) :
    deepEntries m1 m2 = true ↔
      ∀ kv ∈ m1, ∃ w, mapIndex kv.1 m2 = some w ∧ deepValueEqual kv.2 w = true := by
  induction m1 with
  | nil =>
    constructor
    · intro _ kv hkv
      cases hkv
    · intro _
      rfl
  | cons e rest ih =>
    obtain ⟨k, val⟩ := e
    have h1 : deepEntries ((k, val) :: rest) m2
        = ((match mapIndex k m2 with
            | none => false
            | some val2 => deepValueEqual val val2) && deepEntries rest m2) := rfl
    rw [h1, Bool.and_eq_true, ih, List.forall_mem_cons]
    constructor
    · rintro ⟨hk, hrest⟩
      refine ⟨?_, hrest⟩
      cases hm : mapIndex k m2 with
      | none => rw [hm] at hk; cases hk
      | some w => rw [hm] at hk; exact ⟨w, rfl, hk⟩
    · rintro ⟨⟨w, hm, hw⟩, hrest⟩
      refine ⟨?_, hrest⟩
      show (match mapIndex k m2 with
        | none => false
        | some val2 => deepValueEqual val val2) = true
      rw [hm]
      exact hw

theorem DeepEqual_types (v1 v2 : Value) (hd : DeepEqual (some v1) (some v2) = true) :
    v1.kind = v2.kind ∧ v1.typeId = v2.typeId := by
  rw [DeepEqual_some, deepValueEqual_unfold, Bool.and_eq_true] at hd
  exact (sameType_iff v1 v2).1 hd.1

theorem DeepEqual_int (k : IntKind) (named : Option GoType) (i j : Int) :
    DeepEqual (some (.int k named i)) (some (.int k named j)) = true ↔ i = j := by
  have h : DeepEqual (some (.int k named i)) (some (.int k named j))
      = (sameType (.int k named i) (.int k named j) &&
          (sameType (.int k named i) (.int k named j) && (i == j))) := rfl
  have hs : sameType (.int k named i) (.int k named j) = true :=
    sameType_self k.kind (named.map GoType.id) _ _ rfl rfl rfl rfl
  rw [h, hs]
  simp

theorem DeepEqual_string (named : Option GoType) (s t : String) :
    DeepEqual (some (.string named s)) (some (.string named t)) = true ↔ s = t := by
  have h : DeepEqual (some (.string named s)) (some (.string named t))
      = (sameType (.string named s) (.string named t) &&
          (sameType (.string named s) (.string named t) && (s == t))) := rfl
  have hs : sameType (.string named s) (.string named t) = true :=
    sameType_self .String (named.map GoType.id) _ _ rfl rfl rfl rfl
  rw [h, hs]
  simp

theorem DeepEqual_bool (named : Option GoType) (p q : Bool) :
    DeepEqual (some (.bool named p)) (some (.bool named q)) = true ↔ p = q := by
  have h : DeepEqual (some (.bool named p)) (some (.bool named q))
      = (sameType (.bool named p) (.bool named q) &&
          (sameType (.bool named p) (.bool named q) && (p == q))) := rfl
  have hs : sameType (.bool named p) (.bool named q) = true :=
    sameType_self .Bool (named.map GoType.id) _ _ rfl rfl rfl rfl
  rw [h, hs]
  simp

theorem DeepEqual_float (k : FloatKind) (named : Option GoType) (x y : F64) :
    DeepEqual (some (.float k named x)) (some (.float k named y)) = F64.eq x y := by
  have h : DeepEqual (some (.float k named x)) (some (.float k named y))
      = (sameType (.float k named x) (.float k named y) &&
          (sameType (.float k named x) (.float k named y) && F64.eq x y)) := rfl
  have hs : sameType (.float k named x) (.float k named y) = true := by
    cases k <;> exact sameType_self _ (named.map GoType.id) _ _ rfl rfl rfl rfl
  rw [h, hs]
  simp

theorem forall₂_DeepEqual (e1 e2 : List Value) :
    List.Forall₂ (fun u w => deepValueEqual u w = true) e1 e2 ↔
      List.Forall₂ (fun u w => DeepEqual (some u) (some w) = true) e1 e2 := by
  simp only [DeepEqual_some]

theorem DeepEqual_slice (ty : GoType) (b1 b2 : Nat) (e1 e2 : List Value) :
    DeepEqual (some (.slice ty b1 e1)) (some (.slice ty b2 e2)) = true ↔
      e1.length = e2.length ∧
        (b1 = b2 ∨ List.Forall₂ (fun u w => DeepEqual (some u) (some w) = true) e1 e2) := by
  have h : DeepEqual (some (.slice ty b1 e1)) (some (.slice ty b2 e2))
      = (sameType (.slice ty b1 e1) (.slice ty b2 e2) &&
          (sameType (.slice ty b1 e1) (.slice ty b2 e2) &&
            (e1.length == e2.length && (b1 == b2 || deepList e1 e2)))) := rfl
  have hs : sameType (.slice ty b1 e1) (.slice ty b2 e2) = true :=
    sameType_self .Slice (some ty.id) _ _ rfl rfl rfl rfl
  rw [h, hs, ← forall₂_DeepEqual, ← deepList_iff]
  simp

theorem DeepEqual_array (ty : GoType) (e1 e2 : List Value) :
    DeepEqual (some (.array ty e1)) (some (.array ty e2)) = true ↔
      List.Forall₂ (fun u w => DeepEqual (some u) (some w) = true) e1 e2 := by
  have h : DeepEqual (some (.array ty e1)) (some (.array ty e2))
      = (sameType (.array ty e1) (.array ty e2) &&
          (sameType (.array ty e1) (.array ty e2) && deepList e1 e2)) := rfl
  have hs : sameType (.array ty e1) (.array ty e2) = true :=
    sameType_self .Array (some ty.id) _ _ rfl rfl rfl rfl
  rw [h, hs, ← forall₂_DeepEqual, ← deepList_iff]
  simp

theorem DeepEqual_struct (ty : GoType) (f1 f2 : List Value) :
    DeepEqual (some (.struct ty f1)) (some (.struct ty f2)) = true ↔
      List.Forall₂ (fun u w => DeepEqual (some u) (some w) = true) f1 f2 := by
  have h : DeepEqual (some (.struct ty f1)) (some (.struct ty f2))
      = (sameType (.struct ty f1) (.struct ty f2) &&
          (sameType (.struct ty f1) (.struct ty f2) && deepList f1 f2)) := rfl
  have hs : sameType (.struct ty f1) (.struct ty f2) = true :=
    sameType_self .Struct (some ty.id) _ _ rfl rfl rfl rfl
  rw [h, hs, ← forall₂_DeepEqual, ← deepList_iff]
  simp

theorem DeepEqual_map (ty : GoType) (a1 a2 : Nat) (m1 m2 : List (Value × Value)) :
    DeepEqual (some (.map ty a1 m1)) (some (.map ty a2 m2)) = true ↔
      m1.length = m2.length ∧
        (a1 = a2 ∨ ∀ kv ∈ m1, ∃ w, mapIndex kv.1 m2 = some w ∧
          DeepEqual (some kv.2) (some w) = true) := by
  have h : DeepEqual (some (.map ty a1 m1)) (some (.map ty a2 m2))
      = (sameType (.map ty a1 m1) (.map ty a2 m2) &&
          (sameType (.map ty a1 m1) (.map ty a2 m2) &&
            (m1.length == m2.length && (a1 == a2 || deepEntries m1 m2)))) := rfl
  have hs : sameType (.map ty a1 m1) (.map ty a2 m2) = true :=
    sameType_self .Map (some ty.id) _ _ rfl rfl rfl rfl
  simp only [DeepEqual_some]
  rw [← DeepEqual_some, h, hs, ← deepEntries_iff]
  simp

/-- C3: on every subject `x` and every value `b`, Be(b) records no failure and NotEqual(b)
records exactly one when `x` and `b` are deeply equal, and Be(b) records exactly one failure and
NotEqual(b) none when they are not; so exactly one of the two checks records a failure. Deep
equality, which is `reflect.DeepEqual`, is what the claim says it is. The types must match: two
deeply equal values have one kind and one type, and the nil interface is deeply equal to itself
only. Scalars of one type (integers, strings, booleans) are deeply equal exactly when they are
equal, and floats when `==` holds. Composite values of one type are compared element by
element, recursively: two arrays or two structs are deeply equal exactly when their elements
or fields are pairwise deeply equal; two slices that are not nil exactly when they have one
length and either share their storage or hold pairwise deeply equal elements; two maps that
are not nil exactly when they have one length and either are one map or each key of the first
has in the second a value deeply equal to its own. -/
theorem Be_NotEqual_complement (ff : FloatFormat) (a tp : Nat) (x b : Iface) (m : String)
    (h : Heap) (hv : h.verifier a = ⟨some tp, x, m⟩) :
    (DeepEqual x b = true →
      Be ff (some a) b h = .ret (some a) h ∧
      ∃ text, NotEqual ff (some a) b h = .ret (some a) (h.log tp text)) ∧
    (DeepEqual x b = false →
      (∃ text, Be ff (some a) b h = .ret (some a) (h.log tp text)) ∧
      NotEqual ff (some a) b h = .ret (some a) h) ∧
    (∀ v1 v2, DeepEqual (some v1) (some v2) = true →
      v1.kind = v2.kind ∧ v1.typeId = v2.typeId) ∧
    (DeepEqual none none = true ∧
      ∀ v, DeepEqual none (some v) = false ∧ DeepEqual (some v) none = false) ∧
    (∀ k named i j,
      DeepEqual (some (.int k named i)) (some (.int k named j)) = true ↔ i = j) ∧
    (∀ named s t,
      DeepEqual (some (.string named s)) (some (.string named t)) = true ↔ s = t) ∧
    (∀ named p q,
      DeepEqual (some (.bool named p)) (some (.bool named q)) = true ↔ p = q) ∧
    (∀ k named u w,
      DeepEqual (some (.float k named u)) (some (.float k named w)) = F64.eq u w) ∧
    (∀ ty e1 e2,
      DeepEqual (some (.array ty e1)) (some (.array ty e2)) = true ↔
        List.Forall₂ (fun u w => DeepEqual (some u) (some w) = true) e1 e2) ∧
    (∀ ty f1 f2,
      DeepEqual (some (.struct ty f1)) (some (.struct ty f2)) = true ↔
        List.Forall₂ (fun u w => DeepEqual (some u) (some w) = true) f1 f2) ∧
    (∀ ty b1 b2 e1 e2,
      DeepEqual (some (.slice ty b1 e1)) (some (.slice ty b2 e2)) = true ↔
        e1.length = e2.length ∧
          (b1 = b2 ∨ List.Forall₂ (fun u w => DeepEqual (some u) (some w) = true) e1 e2)) ∧
    (∀ ty a1 a2 m1 m2,
      DeepEqual (some (.map ty a1 m1)) (some (.map ty a2 m2)) = true ↔
        m1.length = m2.length ∧
          (a1 = a2 ∨ ∀ kv ∈ m1, ∃ w, mapIndex kv.1 m2 = some w ∧
            DeepEqual (some kv.2) (some w) = true)) := by
  rw [Be_run ff a tp x b m h hv, NotEqual_run ff a tp x b m h hv]
  refine ⟨?_, ?_, DeepEqual_types, ⟨rfl, fun v => ⟨rfl, rfl⟩⟩, DeepEqual_int, DeepEqual_string,
    DeepEqual_bool, DeepEqual_float, DeepEqual_array, DeepEqual_struct, DeepEqual_slice,
    DeepEqual_map⟩
  · intro hd
    simp [hd]
  · intro hd
    simp [hd]

/-- C3, on samples. The subject `[]int{1, 2}` is deeply equal to another slice `[]int{1, 2}`:
Be passes and NotEqual records one failure. It is not deeply equal to `[]int{1, 3}`, which
differs in one element, nor to `[]float64{1, 2}`, of another type: Be records one failure. A
struct of the first type that prints as `main.T` is not deeply equal to one of the second. -/
theorem Be_NotEqual_complement_witness :
    (session (ints 1 [1, 2])).verifier 0 = ⟨some 0, ints 1 [1, 2], ""⟩ ∧
    DeepEqual (ints 1 [1, 2]) (ints 2 [1, 2]) = true ∧
    DeepEqual (ints 1 [1, 2]) (ints 2 [1, 3]) = false ∧
    DeepEqual (ints 1 [1, 2])
      (some (.slice floatSlice 2 [.float .float64 none (.fin false 1 0),
        .float .float64 none (.fin false 2 0)])) = false ∧
    DeepEqual (some (.struct firstT [])) (some (.struct secondT [])) = false ∧
    (Be sampleFloat (some 0) (ints 2 [1, 2]) (session (ints 1 [1, 2]))
      = .ret (some 0) (session (ints 1 [1, 2])) ∧
    ∃ text, NotEqual sampleFloat (some 0) (ints 2 [1, 2]) (session (ints 1 [1, 2]))
      = .ret (some 0) ((session (ints 1 [1, 2])).log 0 text)) ∧
    ((∃ text, Be sampleFloat (some 0) (ints 2 [1, 3]) (session (ints 1 [1, 2]))
      = .ret (some 0) ((session (ints 1 [1, 2])).log 0 text)) ∧
    NotEqual sampleFloat (some 0) (ints 2 [1, 3]) (session (ints 1 [1, 2]))
      = .ret (some 0) (session (ints 1 [1, 2]))) :=
  ⟨rfl, by decide, by decide, by decide, by decide,
    (Be_NotEqual_complement sampleFloat 0 0 (ints 1 [1, 2]) (ints 2 [1, 2]) ""
      (session (ints 1 [1, 2])) rfl).1 (by decide),
    (Be_NotEqual_complement sampleFloat 0 0 (ints 1 [1, 2]) (ints 2 [1, 3]) ""
      (session (ints 1 [1, 2])) rfl).2.1 (by decide)⟩

end Verify
